import Mathlib

/-!
Verification of the IKEv1 state-machine core of libreswan
(programs/pluto/ikev1.c): the static state transition table
(`v1_state_microcode_table`), the packet demultiplexer
(`process_v1_packet`), the payload decoder and ordering checks
(`process_packet_tail`), the transition dispatcher
(`complete_v1_state_transition`), the duplicate controller
(`ikev1_duplicate`), the informational handler (`informational`),
fragment reassembly, and the peer-id / connection refinement logic
(`ikev1_decode_peer_id`).

Machine integers: `lset_t` (a 64-bit bit set in the source) is modelled
as `Nat` with `LELEM n = 2 ^ n`; all bit positions used are far below
64, so no overflow can occur and no reduction mod 2^64 is needed.
-/

/-! ## Bit-set primitives (lset_t, from libreswan's lswcdefs.h) -/

/-- The singleton bit set, `LELEM(n) = 1 << n`. -/
def LELEM (n : Nat) : Nat := 2 ^ n

/-- The contiguous range of bits lo..hi inclusive, `LRANGE(lo, hi)`. -/
def LRANGE (lo hi : Nat) : Nat := (2 ^ (hi + 1) - 1) - (2 ^ lo - 1)

/-- The empty bit set `LEMPTY`. -/
def LEMPTY : Nat := 0

/-- Membership test `LHAS(set, elem)`. -/
def LHAS (set elem : Nat) : Bool := set.testBit elem

/-- Disjointness test `LDISJOINT(a, b)`. -/
def LDISJOINT (a b : Nat) : Bool := a &&& b == 0

/-- Subset test `LIN(a, b)`: all bits of `a` are in `b`. -/
def LIN (a b : Nat) : Bool := a &&& b == a

/-! ## IKEv1 state kinds (constants.h `enum state_kind`, IKEv1 part) -/

/-- IKEv1 state kinds, in the order of the source enum.  `UNDEFINED`
is the out-of-band marker used by the microcode table. -/
inductive StateKind where
  | UNDEFINED
  | MAIN_R0 | MAIN_I1 | MAIN_R1 | MAIN_I2 | MAIN_R2 | MAIN_I3 | MAIN_R3 | MAIN_I4
  | AGGR_R0 | AGGR_I1 | AGGR_R1 | AGGR_I2 | AGGR_R2
  | QUICK_R0 | QUICK_I1 | QUICK_R1 | QUICK_I2 | QUICK_R2
  | INFO | INFO_PROTECTED
  | XAUTH_R0 | XAUTH_R1
  | MODE_CFG_R0 | MODE_CFG_R1 | MODE_CFG_R2 | MODE_CFG_I1
  | XAUTH_I0 | XAUTH_I1
  | IKEv1_ROOF
  deriving DecidableEq, Repr

/-! ## Timer events (timer.h `enum event_type`, the ones the dispatcher uses) -/

/-- Timer event kinds armed by the IKEv1 dispatcher. -/
inductive EventType where
  | NULL
  | RETRANSMIT
  | SA_REPLACE
  | SA_REPLACE_IF_USED
  | SA_EXPIRE
  | SO_DISCARD
  deriving DecidableEq, Repr

/-! ## Payload types (ietf_constants.h `ISAKMP_NEXT_*`) -/

/-- ISAKMP next-payload type numbers (RFC 2408 plus NAT-T extensions).
Only the numeric values that appear as `lset_t` members must be below
64 (`LELEM_ROOF`); the draft NAT-T numbers 130/131 are remapped by the
decoder before being used as bit positions, exactly as in the source. -/
def ISAKMP_NEXT_NONE : Nat := 0
def ISAKMP_NEXT_SA : Nat := 1
def ISAKMP_NEXT_KE : Nat := 4
def ISAKMP_NEXT_ID : Nat := 5
def ISAKMP_NEXT_CERT : Nat := 6
def ISAKMP_NEXT_CR : Nat := 7
def ISAKMP_NEXT_HASH : Nat := 8
def ISAKMP_NEXT_SIG : Nat := 9
def ISAKMP_NEXT_NONCE : Nat := 10
def ISAKMP_NEXT_N : Nat := 11
def ISAKMP_NEXT_D : Nat := 12
def ISAKMP_NEXT_VID : Nat := 13
def ISAKMP_NEXT_MCFG_ATTR : Nat := 14
def ISAKMP_NEXT_SAK : Nat := 15
def ISAKMP_NEXT_NATD_RFC : Nat := 20
def ISAKMP_NEXT_NATOA_RFC : Nat := 21
def ISAKMP_NEXT_NATD_DRAFTS : Nat := 130
def ISAKMP_NEXT_NATOA_DRAFTS : Nat := 131
def ISAKMP_NEXT_IKE_FRAGMENTATION : Nat := 132

/-! ## Oakley auth methods and microcode flag bits (ikev1.c lines 222-244) -/

def OAKLEY_PRESHARED_KEY : Nat := 1
def OAKLEY_DSS_SIG : Nat := 2
def OAKLEY_RSA_SIG : Nat := 3
def OAKLEY_RSA_ENC : Nat := 4
def OAKLEY_RSA_REVISED_MODE : Nat := 5
/-- One past the largest Oakley auth value used as a flag bit. -/
def OAKLEY_AUTH_ROOF : Nat := 12

def SMF_ALL_AUTH : Nat := LRANGE 0 (OAKLEY_AUTH_ROOF - 1)
def SMF_PSK_AUTH : Nat := LELEM OAKLEY_PRESHARED_KEY
def SMF_DS_AUTH : Nat := LELEM OAKLEY_DSS_SIG ||| LELEM OAKLEY_RSA_SIG
def SMF_PKE_AUTH : Nat := LELEM OAKLEY_RSA_ENC
def SMF_RPKE_AUTH : Nat := LELEM OAKLEY_RSA_REVISED_MODE

def SMF_INITIATOR : Nat := LELEM (OAKLEY_AUTH_ROOF + 0)
def SMF_FIRST_ENCRYPTED_INPUT : Nat := LELEM (OAKLEY_AUTH_ROOF + 1)
def SMF_INPUT_ENCRYPTED : Nat := LELEM (OAKLEY_AUTH_ROOF + 2)
def SMF_OUTPUT_ENCRYPTED : Nat := LELEM (OAKLEY_AUTH_ROOF + 3)
def SMF_RETRANSMIT_ON_DUPLICATE : Nat := LELEM (OAKLEY_AUTH_ROOF + 4)
def SMF_ENCRYPTED : Nat := SMF_INPUT_ENCRYPTED ||| SMF_OUTPUT_ENCRYPTED
def SMF_REPLY : Nat := LELEM (OAKLEY_AUTH_ROOF + 5)
def SMF_RELEASE_PENDING_P2 : Nat := LELEM (OAKLEY_AUTH_ROOF + 6)
def SMF_XAUTH_AUTH : Nat := LELEM (OAKLEY_AUTH_ROOF + 7)

/-! ## Hash protection kinds (ikev1_hash.h `enum v1_hash_type`) -/

inductive V1HashType where
  | NONE
  | HASH_1
  | HASH_2
  | HASH_3
  deriving DecidableEq, Repr

/-! ## Transition handlers

Handler functions are external to the table; the table only stores a
pointer.  Each distinct handler appearing in `v1_state_microcode_table`
is one constructor, so pointer comparisons (`t->processor != unexpected`)
are decidable equalities. -/

inductive Processor where
  | unexpected
  | informational
  | main_inI1_outR1 | main_inR1_outI2 | main_inI2_outR2 | main_inR2_outI3
  | main_inI3_outR3 | main_inR3
  | aggr_inI1_outR1 | aggr_inR1_outI2 | aggr_inI2
  | quick_inI1_outR1 | quick_inR1_outI2 | quick_inI2
  | xauth_inR0 | xauth_inR1 | modecfg_inR0 | modecfg_inR1
  | xauth_inI0 | xauth_inI1
  | none_
  deriving DecidableEq, Repr

/-! ## The microcode tuple (ikev1.c `struct state_v1_microcode`) -/

structure StateV1Microcode where
  state : StateKind
  next_state : StateKind
  flags : Nat
  req_payloads : Nat
  opt_payloads : Nat
  timeout_event : EventType
  processor : Processor
  hash_type : V1HashType
  deriving DecidableEq, Repr

/-- Short-hand for `LELEM` over a payload number, the table's `P(n)`. -/
def P (n : Nat) : Nat := LELEM n

/-! ## The static state transition table (ikev1.c lines 260-736)

Transcribed entry by entry, in source order, including the sentinel
roof entry.  Entries guarded out by `#if 0` in the source are omitted,
as the compiler omits them. -/

def v1_state_microcode_table : List StateV1Microcode := [
  -- STATE_MAIN_R0: I1 --> R1
  { state := .MAIN_R0, next_state := .MAIN_R1,
    flags := SMF_ALL_AUTH ||| SMF_REPLY,
    req_payloads := P ISAKMP_NEXT_SA,
    opt_payloads := P ISAKMP_NEXT_VID ||| P ISAKMP_NEXT_CR,
    timeout_event := .SO_DISCARD,
    processor := .main_inI1_outR1, hash_type := .NONE },
  -- STATE_MAIN_I1: R1 --> I2
  { state := .MAIN_I1, next_state := .MAIN_I2,
    flags := SMF_ALL_AUTH ||| SMF_INITIATOR ||| SMF_REPLY,
    req_payloads := P ISAKMP_NEXT_SA,
    opt_payloads := P ISAKMP_NEXT_VID ||| P ISAKMP_NEXT_CR,
    timeout_event := .RETRANSMIT,
    processor := .main_inR1_outI2, hash_type := .NONE },
  -- STATE_MAIN_R1: I2 --> R2 (PSK / DS)
  { state := .MAIN_R1, next_state := .MAIN_R2,
    flags := SMF_PSK_AUTH ||| SMF_DS_AUTH ||| SMF_REPLY ||| SMF_RETRANSMIT_ON_DUPLICATE,
    req_payloads := P ISAKMP_NEXT_KE ||| P ISAKMP_NEXT_NONCE,
    opt_payloads := P ISAKMP_NEXT_VID ||| P ISAKMP_NEXT_CR ||| P ISAKMP_NEXT_NATD_RFC,
    timeout_event := .RETRANSMIT,
    processor := .main_inI2_outR2, hash_type := .NONE },
  { state := .MAIN_R1, next_state := .UNDEFINED,
    flags := SMF_PKE_AUTH ||| SMF_REPLY ||| SMF_RETRANSMIT_ON_DUPLICATE,
    req_payloads := P ISAKMP_NEXT_KE ||| P ISAKMP_NEXT_ID ||| P ISAKMP_NEXT_NONCE,
    opt_payloads := P ISAKMP_NEXT_VID ||| P ISAKMP_NEXT_CR ||| P ISAKMP_NEXT_HASH,
    timeout_event := .RETRANSMIT,
    processor := .unexpected, hash_type := .NONE },
  { state := .MAIN_R1, next_state := .UNDEFINED,
    flags := SMF_RPKE_AUTH ||| SMF_REPLY ||| SMF_RETRANSMIT_ON_DUPLICATE,
    req_payloads := P ISAKMP_NEXT_NONCE ||| P ISAKMP_NEXT_KE ||| P ISAKMP_NEXT_ID,
    opt_payloads := P ISAKMP_NEXT_VID ||| P ISAKMP_NEXT_CR ||| P ISAKMP_NEXT_HASH ||| P ISAKMP_NEXT_CERT,
    timeout_event := .RETRANSMIT,
    processor := .unexpected, hash_type := .NONE },
  -- STATE_MAIN_I2: R2 --> I3
  { state := .MAIN_I2, next_state := .MAIN_I3,
    flags := SMF_PSK_AUTH ||| SMF_DS_AUTH ||| SMF_INITIATOR ||| SMF_OUTPUT_ENCRYPTED ||| SMF_REPLY,
    req_payloads := P ISAKMP_NEXT_KE ||| P ISAKMP_NEXT_NONCE,
    opt_payloads := P ISAKMP_NEXT_VID ||| P ISAKMP_NEXT_CR ||| P ISAKMP_NEXT_NATD_RFC,
    timeout_event := .RETRANSMIT,
    processor := .main_inR2_outI3, hash_type := .NONE },
  { state := .MAIN_I2, next_state := .UNDEFINED,
    flags := SMF_PKE_AUTH ||| SMF_INITIATOR ||| SMF_OUTPUT_ENCRYPTED ||| SMF_REPLY,
    req_payloads := P ISAKMP_NEXT_KE ||| P ISAKMP_NEXT_ID ||| P ISAKMP_NEXT_NONCE,
    opt_payloads := P ISAKMP_NEXT_VID ||| P ISAKMP_NEXT_CR,
    timeout_event := .RETRANSMIT,
    processor := .unexpected, hash_type := .NONE },
  { state := .MAIN_I2, next_state := .UNDEFINED,
    flags := SMF_ALL_AUTH ||| SMF_INITIATOR ||| SMF_OUTPUT_ENCRYPTED ||| SMF_REPLY,
    req_payloads := P ISAKMP_NEXT_NONCE ||| P ISAKMP_NEXT_KE ||| P ISAKMP_NEXT_ID,
    opt_payloads := P ISAKMP_NEXT_VID ||| P ISAKMP_NEXT_CR,
    timeout_event := .RETRANSMIT,
    processor := .unexpected, hash_type := .NONE },
  -- STATE_MAIN_R2: I3 --> R3
  { state := .MAIN_R2, next_state := .MAIN_R3,
    flags := SMF_PSK_AUTH ||| SMF_FIRST_ENCRYPTED_INPUT ||| SMF_ENCRYPTED ||| SMF_REPLY ||| SMF_RELEASE_PENDING_P2,
    req_payloads := P ISAKMP_NEXT_ID ||| P ISAKMP_NEXT_HASH,
    opt_payloads := P ISAKMP_NEXT_VID ||| P ISAKMP_NEXT_CR,
    timeout_event := .SA_REPLACE,
    processor := .main_inI3_outR3, hash_type := .NONE },
  { state := .MAIN_R2, next_state := .MAIN_R3,
    flags := SMF_DS_AUTH ||| SMF_FIRST_ENCRYPTED_INPUT ||| SMF_ENCRYPTED ||| SMF_REPLY ||| SMF_RELEASE_PENDING_P2,
    req_payloads := P ISAKMP_NEXT_ID ||| P ISAKMP_NEXT_SIG,
    opt_payloads := P ISAKMP_NEXT_VID ||| P ISAKMP_NEXT_CR ||| P ISAKMP_NEXT_CERT,
    timeout_event := .SA_REPLACE,
    processor := .main_inI3_outR3, hash_type := .NONE },
  { state := .MAIN_R2, next_state := .UNDEFINED,
    flags := SMF_PKE_AUTH ||| SMF_RPKE_AUTH ||| SMF_FIRST_ENCRYPTED_INPUT ||| SMF_ENCRYPTED ||| SMF_REPLY ||| SMF_RELEASE_PENDING_P2,
    req_payloads := P ISAKMP_NEXT_HASH,
    opt_payloads := P ISAKMP_NEXT_VID ||| P ISAKMP_NEXT_CR,
    timeout_event := .SA_REPLACE,
    processor := .unexpected, hash_type := .NONE },
  -- STATE_MAIN_I3: R3 --> done
  { state := .MAIN_I3, next_state := .MAIN_I4,
    flags := SMF_PSK_AUTH ||| SMF_INITIATOR ||| SMF_FIRST_ENCRYPTED_INPUT ||| SMF_ENCRYPTED ||| SMF_RELEASE_PENDING_P2,
    req_payloads := P ISAKMP_NEXT_ID ||| P ISAKMP_NEXT_HASH,
    opt_payloads := P ISAKMP_NEXT_VID ||| P ISAKMP_NEXT_CR,
    timeout_event := .SA_REPLACE,
    processor := .main_inR3, hash_type := .NONE },
  { state := .MAIN_I3, next_state := .MAIN_I4,
    flags := SMF_DS_AUTH ||| SMF_INITIATOR ||| SMF_FIRST_ENCRYPTED_INPUT ||| SMF_ENCRYPTED ||| SMF_RELEASE_PENDING_P2,
    req_payloads := P ISAKMP_NEXT_ID ||| P ISAKMP_NEXT_SIG,
    opt_payloads := P ISAKMP_NEXT_VID ||| P ISAKMP_NEXT_CR ||| P ISAKMP_NEXT_CERT,
    timeout_event := .SA_REPLACE,
    processor := .main_inR3, hash_type := .NONE },
  { state := .MAIN_I3, next_state := .UNDEFINED,
    flags := SMF_PKE_AUTH ||| SMF_RPKE_AUTH ||| SMF_INITIATOR ||| SMF_FIRST_ENCRYPTED_INPUT ||| SMF_ENCRYPTED ||| SMF_RELEASE_PENDING_P2,
    req_payloads := P ISAKMP_NEXT_HASH,
    opt_payloads := P ISAKMP_NEXT_VID ||| P ISAKMP_NEXT_CR,
    timeout_event := .SA_REPLACE,
    processor := .unexpected, hash_type := .NONE },
  -- STATE_MAIN_R3: only by packet loss
  { state := .MAIN_R3, next_state := .UNDEFINED,
    flags := SMF_ALL_AUTH ||| SMF_ENCRYPTED ||| SMF_RETRANSMIT_ON_DUPLICATE,
    req_payloads := LEMPTY, opt_payloads := LEMPTY,
    timeout_event := .NULL,
    processor := .unexpected, hash_type := .NONE },
  -- STATE_MAIN_I4: only by packet loss
  { state := .MAIN_I4, next_state := .UNDEFINED,
    flags := SMF_ALL_AUTH ||| SMF_INITIATOR ||| SMF_ENCRYPTED,
    req_payloads := LEMPTY, opt_payloads := LEMPTY,
    timeout_event := .NULL,
    processor := .unexpected, hash_type := .NONE },
  -- STATE_AGGR_R0
  { state := .AGGR_R0, next_state := .AGGR_R1,
    flags := SMF_PSK_AUTH ||| SMF_DS_AUTH ||| SMF_REPLY,
    req_payloads := P ISAKMP_NEXT_SA ||| P ISAKMP_NEXT_KE ||| P ISAKMP_NEXT_NONCE ||| P ISAKMP_NEXT_ID,
    opt_payloads := P ISAKMP_NEXT_VID ||| P ISAKMP_NEXT_NATD_RFC,
    timeout_event := .SO_DISCARD,
    processor := .aggr_inI1_outR1, hash_type := .NONE },
  -- STATE_AGGR_I1
  { state := .AGGR_I1, next_state := .AGGR_I2,
    flags := SMF_PSK_AUTH ||| SMF_INITIATOR ||| SMF_OUTPUT_ENCRYPTED ||| SMF_REPLY ||| SMF_RELEASE_PENDING_P2,
    req_payloads := P ISAKMP_NEXT_SA ||| P ISAKMP_NEXT_KE ||| P ISAKMP_NEXT_NONCE ||| P ISAKMP_NEXT_ID ||| P ISAKMP_NEXT_HASH,
    opt_payloads := P ISAKMP_NEXT_VID ||| P ISAKMP_NEXT_NATD_RFC,
    timeout_event := .SA_REPLACE,
    processor := .aggr_inR1_outI2, hash_type := .NONE },
  { state := .AGGR_I1, next_state := .AGGR_I2,
    flags := SMF_DS_AUTH ||| SMF_INITIATOR ||| SMF_OUTPUT_ENCRYPTED ||| SMF_REPLY ||| SMF_RELEASE_PENDING_P2,
    req_payloads := P ISAKMP_NEXT_SA ||| P ISAKMP_NEXT_KE ||| P ISAKMP_NEXT_NONCE ||| P ISAKMP_NEXT_ID ||| P ISAKMP_NEXT_SIG,
    opt_payloads := P ISAKMP_NEXT_VID ||| P ISAKMP_NEXT_NATD_RFC,
    timeout_event := .SA_REPLACE,
    processor := .aggr_inR1_outI2, hash_type := .NONE },
  -- STATE_AGGR_R1
  { state := .AGGR_R1, next_state := .AGGR_R2,
    flags := SMF_PSK_AUTH ||| SMF_FIRST_ENCRYPTED_INPUT ||| SMF_OUTPUT_ENCRYPTED ||| SMF_RELEASE_PENDING_P2 ||| SMF_RETRANSMIT_ON_DUPLICATE,
    req_payloads := P ISAKMP_NEXT_HASH,
    opt_payloads := P ISAKMP_NEXT_VID ||| P ISAKMP_NEXT_NATD_RFC,
    timeout_event := .SA_REPLACE,
    processor := .aggr_inI2, hash_type := .NONE },
  { state := .AGGR_R1, next_state := .AGGR_R2,
    flags := SMF_DS_AUTH ||| SMF_FIRST_ENCRYPTED_INPUT ||| SMF_OUTPUT_ENCRYPTED ||| SMF_RELEASE_PENDING_P2 ||| SMF_RETRANSMIT_ON_DUPLICATE,
    req_payloads := P ISAKMP_NEXT_SIG,
    opt_payloads := P ISAKMP_NEXT_VID ||| P ISAKMP_NEXT_NATD_RFC,
    timeout_event := .SA_REPLACE,
    processor := .aggr_inI2, hash_type := .NONE },
  -- STATE_AGGR_I2: only by packet loss
  { state := .AGGR_I2, next_state := .UNDEFINED,
    flags := SMF_ALL_AUTH ||| SMF_INITIATOR ||| SMF_RETRANSMIT_ON_DUPLICATE,
    req_payloads := LEMPTY, opt_payloads := LEMPTY,
    timeout_event := .NULL,
    processor := .unexpected, hash_type := .NONE },
  -- STATE_AGGR_R2: only by packet loss
  { state := .AGGR_R2, next_state := .UNDEFINED,
    flags := SMF_ALL_AUTH,
    req_payloads := LEMPTY, opt_payloads := LEMPTY,
    timeout_event := .NULL,
    processor := .unexpected, hash_type := .NONE },
  -- STATE_QUICK_R0
  { state := .QUICK_R0, next_state := .QUICK_R1,
    flags := SMF_ALL_AUTH ||| SMF_ENCRYPTED ||| SMF_REPLY,
    req_payloads := P ISAKMP_NEXT_HASH ||| P ISAKMP_NEXT_SA ||| P ISAKMP_NEXT_NONCE,
    opt_payloads := P ISAKMP_NEXT_KE ||| P ISAKMP_NEXT_ID ||| P ISAKMP_NEXT_NATOA_RFC,
    timeout_event := .RETRANSMIT,
    processor := .quick_inI1_outR1, hash_type := .HASH_1 },
  -- STATE_QUICK_I1
  { state := .QUICK_I1, next_state := .QUICK_I2,
    flags := SMF_ALL_AUTH ||| SMF_INITIATOR ||| SMF_ENCRYPTED ||| SMF_REPLY,
    req_payloads := P ISAKMP_NEXT_HASH ||| P ISAKMP_NEXT_SA ||| P ISAKMP_NEXT_NONCE,
    opt_payloads := P ISAKMP_NEXT_KE ||| P ISAKMP_NEXT_ID ||| P ISAKMP_NEXT_NATOA_RFC,
    timeout_event := .SA_REPLACE,
    processor := .quick_inR1_outI2, hash_type := .HASH_2 },
  -- STATE_QUICK_R1: HASH(3) --> done
  { state := .QUICK_R1, next_state := .QUICK_R2,
    flags := SMF_ALL_AUTH ||| SMF_ENCRYPTED,
    req_payloads := P ISAKMP_NEXT_HASH,
    opt_payloads := LEMPTY,
    timeout_event := .SA_REPLACE,
    processor := .quick_inI2, hash_type := .HASH_3 },
  -- STATE_QUICK_I2: only by lost packet
  { state := .QUICK_I2, next_state := .UNDEFINED,
    flags := SMF_ALL_AUTH ||| SMF_INITIATOR ||| SMF_ENCRYPTED ||| SMF_RETRANSMIT_ON_DUPLICATE,
    req_payloads := LEMPTY, opt_payloads := LEMPTY,
    timeout_event := .NULL,
    processor := .unexpected, hash_type := .NONE },
  -- STATE_QUICK_R2: only by lost packet
  { state := .QUICK_R2, next_state := .UNDEFINED,
    flags := SMF_ALL_AUTH ||| SMF_ENCRYPTED,
    req_payloads := LEMPTY, opt_payloads := LEMPTY,
    timeout_event := .NULL,
    processor := .unexpected, hash_type := .NONE },
  -- STATE_INFO
  { state := .INFO, next_state := .UNDEFINED,
    flags := SMF_ALL_AUTH,
    req_payloads := LEMPTY, opt_payloads := LEMPTY,
    timeout_event := .NULL,
    processor := .informational, hash_type := .NONE },
  -- STATE_INFO_PROTECTED
  { state := .INFO_PROTECTED, next_state := .UNDEFINED,
    flags := SMF_ALL_AUTH ||| SMF_ENCRYPTED,
    req_payloads := P ISAKMP_NEXT_HASH,
    opt_payloads := LEMPTY,
    timeout_event := .NULL,
    processor := .informational, hash_type := .HASH_1 },
  -- STATE_XAUTH_R0
  { state := .XAUTH_R0, next_state := .XAUTH_R1,
    flags := SMF_ALL_AUTH ||| SMF_ENCRYPTED,
    req_payloads := P ISAKMP_NEXT_MCFG_ATTR ||| P ISAKMP_NEXT_HASH,
    opt_payloads := P ISAKMP_NEXT_VID,
    timeout_event := .NULL,
    processor := .xauth_inR0, hash_type := .HASH_1 },
  -- STATE_XAUTH_R1
  { state := .XAUTH_R1, next_state := .MAIN_R3,
    flags := SMF_ALL_AUTH ||| SMF_ENCRYPTED,
    req_payloads := P ISAKMP_NEXT_MCFG_ATTR ||| P ISAKMP_NEXT_HASH,
    opt_payloads := P ISAKMP_NEXT_VID,
    timeout_event := .SA_REPLACE,
    processor := .xauth_inR1, hash_type := .HASH_1 },
  -- STATE_MODE_CFG_R0
  { state := .MODE_CFG_R0, next_state := .MODE_CFG_R1,
    flags := SMF_ALL_AUTH ||| SMF_ENCRYPTED ||| SMF_REPLY,
    req_payloads := P ISAKMP_NEXT_MCFG_ATTR ||| P ISAKMP_NEXT_HASH,
    opt_payloads := P ISAKMP_NEXT_VID,
    timeout_event := .SA_REPLACE,
    processor := .modecfg_inR0, hash_type := .HASH_1 },
  -- STATE_MODE_CFG_R1
  { state := .MODE_CFG_R1, next_state := .MODE_CFG_R2,
    flags := SMF_ALL_AUTH ||| SMF_ENCRYPTED,
    req_payloads := P ISAKMP_NEXT_MCFG_ATTR ||| P ISAKMP_NEXT_HASH,
    opt_payloads := P ISAKMP_NEXT_VID,
    timeout_event := .SA_REPLACE,
    processor := .modecfg_inR1, hash_type := .HASH_1 },
  -- STATE_MODE_CFG_R2
  { state := .MODE_CFG_R2, next_state := .UNDEFINED,
    flags := SMF_ALL_AUTH ||| SMF_ENCRYPTED,
    req_payloads := LEMPTY, opt_payloads := LEMPTY,
    timeout_event := .NULL,
    processor := .unexpected, hash_type := .NONE },
  -- STATE_MODE_CFG_I1
  { state := .MODE_CFG_I1, next_state := .MAIN_I4,
    flags := SMF_ALL_AUTH ||| SMF_ENCRYPTED ||| SMF_RELEASE_PENDING_P2,
    req_payloads := P ISAKMP_NEXT_MCFG_ATTR ||| P ISAKMP_NEXT_HASH,
    opt_payloads := P ISAKMP_NEXT_VID,
    timeout_event := .SA_REPLACE,
    processor := .modecfg_inR1, hash_type := .HASH_1 },
  -- STATE_XAUTH_I0
  { state := .XAUTH_I0, next_state := .XAUTH_I1,
    flags := SMF_ALL_AUTH ||| SMF_ENCRYPTED ||| SMF_REPLY ||| SMF_RELEASE_PENDING_P2,
    req_payloads := P ISAKMP_NEXT_MCFG_ATTR ||| P ISAKMP_NEXT_HASH,
    opt_payloads := P ISAKMP_NEXT_VID,
    timeout_event := .RETRANSMIT,
    processor := .xauth_inI0, hash_type := .HASH_1 },
  -- STATE_XAUTH_I1
  { state := .XAUTH_I1, next_state := .MAIN_I4,
    flags := SMF_ALL_AUTH ||| SMF_ENCRYPTED ||| SMF_REPLY ||| SMF_RELEASE_PENDING_P2,
    req_payloads := P ISAKMP_NEXT_MCFG_ATTR ||| P ISAKMP_NEXT_HASH,
    opt_payloads := P ISAKMP_NEXT_VID,
    timeout_event := .RETRANSMIT,
    processor := .xauth_inI1, hash_type := .HASH_1 },
  -- sentinel roof entry
  { state := .IKEv1_ROOF, next_state := .IKEv1_ROOF,
    flags := LEMPTY,
    req_payloads := LEMPTY, opt_payloads := LEMPTY,
    timeout_event := .NULL,
    processor := .none_, hash_type := .NONE }
]

/-- Flag membership test on a microcode entry, `t->flags & f`. -/
def hasFlag (t : StateV1Microcode) (f : Nat) : Bool := !(LDISJOINT t.flags f)

/-- The merged per-state flag computed by `init_ikev1` (ikev1.c line
847): a finite state carries `SMF_RETRANSMIT_ON_DUPLICATE` iff some
transition out of it carries that flag. -/
def stateRetransmitOnDuplicate (s : StateKind) : Bool :=
  v1_state_microcode_table.any fun t =>
    t.state == s && hasFlag t SMF_RETRANSMIT_ON_DUPLICATE

/-! ## Claim C2: encrypted non-first inputs require HASH protection

The property `init_ikev1` asserts for every table entry (ikev1.c lines
849-868). -/

/-- C2: for every entry of the static state transition table whose
flags include `SMF_INPUT_ENCRYPTED` but not `SMF_FIRST_ENCRYPTED_INPUT`
and whose handler is not `unexpected`, the required-payload mask
contains the HASH payload and the hash type is not `V1_HASH_NONE`. -/
theorem v1_table_encrypted_input_requires_hash :
    ∀ t ∈ v1_state_microcode_table,
      hasFlag t SMF_INPUT_ENCRYPTED = true →
      hasFlag t SMF_FIRST_ENCRYPTED_INPUT = false →
      t.processor ≠ Processor.unexpected →
      LHAS t.req_payloads ISAKMP_NEXT_HASH = true ∧ t.hash_type ≠ V1HashType.NONE := by
  decide

/-- The STATE_QUICK_R0 entry of the table, used as a concrete witness. -/
def mcQuickR0 : StateV1Microcode := v1_state_microcode_table.get ⟨23, by decide⟩

/-- Witness for C2: the Quick Mode R0 entry satisfies the property. -/
theorem v1_table_encrypted_input_requires_hash_witness :
    LHAS mcQuickR0.req_payloads ISAKMP_NEXT_HASH = true ∧
      mcQuickR0.hash_type ≠ V1HashType.NONE :=
  v1_table_encrypted_input_requires_hash mcQuickR0 (by decide) (by decide) (by decide)
    (by decide)

/-! ## Claim C3: the duplicate and retransmit controller (ikev1.c
`ikev1_duplicate`, lines 1175-1221) -/

/-- The per-SA fields `ikev1_duplicate` reads and writes. -/
structure DupState where
  st_state : StateKind
  st_rpacket : Option (List Nat)
  st_v1_last_transition : Option StateV1Microcode
  dup_counter : Nat
  deriving DecidableEq, Repr

/-- Outcome of the duplicate controller for one inbound packet. -/
inductive DupOutcome where
  | notDuplicate
  | retransmitted
  | droppedExhausted
  | droppedNoReply
  deriving DecidableEq, Repr

/-- Modelled from the spec: `count_duplicate` (retransmit.c, which is
not under src/) applies a per-SA duplicate counter capped at the given
maximum: it increments the counter and answers true while below the
cap, else answers false. -/
def count_duplicate (st : DupState) (maxDup : Nat) : Bool × DupState :=
  if st.dup_counter < maxDup then
    (true, { st with dup_counter := st.dup_counter + 1 })
  else
    (false, st)

/-- The duplicate controller `ikev1_duplicate`.  Answers whether the
packet was recognised as a duplicate, what was done about it, and the
updated SA.  The replay of the recorded reply and logging are external
side effects represented by the outcome constructors. -/
def ikev1_duplicate (st : DupState) (packet : List Nat) (maxDup : Nat) :
    DupOutcome × DupState :=
  match st.st_rpacket with
  | some r =>
    if r = packet then
      let replied :=
        match st.st_v1_last_transition with
        | some t => hasFlag t SMF_REPLY
        | none => false
      let retransmit_on_duplicate := stateRetransmitOnDuplicate st.st_state
      if replied && retransmit_on_duplicate then
        match st.st_v1_last_transition with
        | some t =>
          if t.timeout_event = EventType.SO_DISCARD then
            (.retransmitted, st)
          else
            let (ok, st1) := count_duplicate st maxDup
            if ok then (.retransmitted, st1) else (.droppedExhausted, st1)
        | none => (.droppedNoReply, st)
      else
        (.droppedNoReply, st)
    else
      (.notDuplicate, st)
  | none => (.notDuplicate, st)

/-- C3: for a packet bytewise equal to the stored `st_rpacket`, the SA
state never changes, and the stored reply is retransmitted exactly when
the last transition had `SMF_REPLY`, the current state has
`SMF_RETRANSMIT_ON_DUPLICATE`, and either the last transition's timer
event is `EVENT_SO_DISCARD` (always retransmit) or the per-SA
duplicate counter is still below the cap. -/
theorem ikev1_duplicate_spec (st : DupState) (packet : List Nat) (maxDup : Nat)
    (h : st.st_rpacket = some packet) :
    (ikev1_duplicate st packet maxDup).2.st_state = st.st_state ∧
    (ikev1_duplicate st packet maxDup).2.st_rpacket = st.st_rpacket ∧
    (ikev1_duplicate st packet maxDup).2.st_v1_last_transition = st.st_v1_last_transition ∧
    ((ikev1_duplicate st packet maxDup).1 = DupOutcome.retransmitted ↔
      ∃ t, st.st_v1_last_transition = some t ∧
        hasFlag t SMF_REPLY = true ∧
        stateRetransmitOnDuplicate st.st_state = true ∧
        (t.timeout_event = EventType.SO_DISCARD ∨ st.dup_counter < maxDup)) := by
  obtain ⟨state, rp, last, ctr⟩ := st
  simp only [DupState.mk.injEq] at h ⊢
  subst h
  simp only [ikev1_duplicate, count_duplicate, if_pos rfl]
  cases last with
  | none => simp
  | some t =>
    simp only [ikev1_duplicate, count_duplicate, if_pos rfl]
    split_ifs with h1 h2 h3 <;> simp_all

/-- Witness for C3: an SA in STATE_MAIN_R1 whose last transition was
the MAIN_R0 -> MAIN_R1 entry (a replying transition with
`EVENT_SO_DISCARD`) retransmits on a bytewise duplicate. -/
theorem ikev1_duplicate_spec_witness :
    (ikev1_duplicate
        { st_state := .MAIN_R1, st_rpacket := some [1, 2, 3],
          st_v1_last_transition := some (v1_state_microcode_table.get ⟨0, by decide⟩),
          dup_counter := 0 }
        [1, 2, 3] 2).2.st_state = StateKind.MAIN_R1 ∧
    (ikev1_duplicate
        { st_state := .MAIN_R1, st_rpacket := some [1, 2, 3],
          st_v1_last_transition := some (v1_state_microcode_table.get ⟨0, by decide⟩),
          dup_counter := 0 }
        [1, 2, 3] 2).1 = DupOutcome.retransmitted := by
  have h := ikev1_duplicate_spec
      { st_state := .MAIN_R1, st_rpacket := some [1, 2, 3],
        st_v1_last_transition := some (v1_state_microcode_table.get ⟨0, by decide⟩),
        dup_counter := 0 }
      [1, 2, 3] 2 rfl
  refine ⟨h.1, ?_⟩
  exact h.2.2.2.mpr ⟨_, rfl, by decide, by decide, Or.inl (by decide)⟩

/-! ## Claim C4: PAYLOAD_MALFORMED handling in the informational
handler (ikev1.c `informational`, lines 933-956) -/

/-- Notification types appearing in the modelled code paths, both
inbound (switch of `informational`) and outbound (`SEND_NOTIFICATION`
arguments). -/
inductive NotifyType where
  | R_U_THERE
  | R_U_THERE_ACK
  | PAYLOAD_MALFORMED
  | ISAKMP_N_CISCO_LOAD_BALANCE
  | INVALID_MESSAGE_ID
  | INVALID_COOKIE
  | INVALID_FLAGS
  | INVALID_PAYLOAD_TYPE
  | UNSUPPORTED_EXCHANGE_TYPE
  | IPSEC_RESPONDER_LIFETIME
  | otherNotify
  deriving DecidableEq, Repr

/-- The hidden per-SA malformed-notify counters. -/
structure MalformedCounters where
  st_malformed_sent : Nat
  st_malformed_received : Nat
  deriving DecidableEq, Repr

/-- Result of the `informational` handler for a notification payload:
all paths return STF_IGNORE, but the PAYLOAD_MALFORMED branch may
delete the SA, and the DPD branches delegate to the DPD submodule. -/
inductive InfoNotifyResult where
  | ignoredNoState
  | dpdDelegated
  | ignored (counters : MalformedCounters)
  | saDeleted
  | ignoredOther
  deriving DecidableEq, Repr

/-- The notification switch of the `informational` handler, for the
branches that touch SA state.  `threshold` is `MAXIMUM_MALFORMED_NOTIFY`,
a constant defined outside the inspected sources and surfaced here as a
parameter.  The CISCO_LOAD_BALANCE branch mutates the connection and is
outside the modelled state (its result is `ignoredOther`). -/
def informational_notify (threshold : Nat) (st : Option MalformedCounters)
    (n : NotifyType) : InfoNotifyResult :=
  match n with
  | .R_U_THERE =>
    match st with
    | none => .ignoredNoState
    | some _ => .dpdDelegated
  | .R_U_THERE_ACK =>
    match st with
    | none => .ignoredNoState
    | some _ => .dpdDelegated
  | .PAYLOAD_MALFORMED =>
    match st with
    | none => .ignoredNoState
    | some c =>
      let c1 : MalformedCounters :=
        { c with st_malformed_received := c.st_malformed_received + 1 }
      if c1.st_malformed_sent > threshold / 2 &&
         c1.st_malformed_sent + c1.st_malformed_received > threshold then
        .saDeleted
      else
        .ignored c1
  | _ => .ignoredOther

/-- Counterexample for C4.  The claim asserts the SA is deleted exactly
when sent+received exceeds the threshold and the RECEIVED counter
exceeds half the threshold.  With threshold 16, sent 0 and received 20,
the claim's condition holds after the increment (0 + 21 > 16 and
21 > 8), yet the code keeps the SA: the code tests the SENT counter
against half the threshold, not the received one. -/
theorem informational_malformed_counterexample :
    (0 + (20 + 1) > 16 ∧ 20 + 1 > 16 / 2) ∧
    informational_notify 16 (some { st_malformed_sent := 0, st_malformed_received := 20 })
        NotifyType.PAYLOAD_MALFORMED =
      InfoNotifyResult.ignored { st_malformed_sent := 0, st_malformed_received := 21 } := by
  decide

/-- C4 (amended): on PAYLOAD_MALFORMED for an existing SA the received
counter is incremented, and the SA is deleted exactly when the SENT
counter exceeds half of MAXIMUM_MALFORMED_NOTIFY and the sum of sent
and (incremented) received exceeds MAXIMUM_MALFORMED_NOTIFY; otherwise
the SA is kept with only the received counter bumped. -/
theorem informational_malformed_spec (threshold : Nat) (c : MalformedCounters) :
    informational_notify threshold (some c) NotifyType.PAYLOAD_MALFORMED =
      (if c.st_malformed_sent + (c.st_malformed_received + 1) > threshold ∧
          c.st_malformed_sent > threshold / 2 then
        InfoNotifyResult.saDeleted
      else
        InfoNotifyResult.ignored
          { c with st_malformed_received := c.st_malformed_received + 1 }) := by
  simp only [informational_notify]
  split_ifs with h1 h2 <;> simp_all

/-! ## The packet demultiplexer (ikev1.c `process_v1_packet`)

State objects and the state table live in state.c, which is not under
src/; the lookup helpers and the established / authenticated /
encrypted state predicates are modelled from the spec (sections 4.1 and
3) and marked as such. -/

/-- ISAKMP header flag bits (RFC 2408; flags byte). -/
def ISAKMP_FLAGS_v1_ENCRYPTION : Nat := LELEM 0
def ISAKMP_FLAGS_v1_COMMIT : Nat := LELEM 1

/-- The Phase-1 message id, zero. -/
def v1_MAINMODE_MSGID : Nat := 0

/-- Exchange type numbers (RFC 2408 / ietf_constants.h). -/
def ISAKMP_XCHG_IDPROT : Nat := 2
def ISAKMP_XCHG_AGGR : Nat := 4
def ISAKMP_XCHG_INFO : Nat := 5
def ISAKMP_XCHG_MODE_CFG : Nat := 6
def ISAKMP_XCHG_QUICK : Nat := 32

/-- The parsed ISAKMP header fields the demultiplexer reads.  SPIs
(cookies) are 8-byte values modelled as `Nat`; `ike_spi_is_zero`
becomes a comparison with 0. -/
structure IsakmpHdr where
  isa_ike_initiator_spi : Nat
  isa_ike_responder_spi : Nat
  isa_xchg : Nat
  isa_flags : Nat
  isa_msgid : Nat
  isa_np : Nat
  deriving DecidableEq, Repr

/-- Encryption-flag test on a header, `hdr.isa_flags & ISAKMP_FLAGS_v1_ENCRYPTION`. -/
def hdrEncrypted (hdr : IsakmpHdr) : Bool :=
  !(LDISJOINT hdr.isa_flags ISAKMP_FLAGS_v1_ENCRYPTION)

/-- The per-SA fields the demultiplexer reads: SPI pair, the SA's own
message id, current state, the XAUTH-in-progress flag, and the set of
Phase-2 message ids already seen (backing `unique_msgid`). -/
structure DemuxSa where
  icookie : Nat
  rcookie : Nat
  msgid : Nat
  st_state : StateKind
  doing_xauth : Bool
  used_msgids : List Nat
  deriving DecidableEq, Repr

/-- Modelled from the spec: `find_state_ikev1` (state.c, not under
src/) looks a state up by both SPIs and the message id. -/
def find_state_ikev1 (db : List DemuxSa) (ic rc msgid : Nat) : Option DemuxSa :=
  db.find? fun s => s.icookie == ic && s.rcookie == rc && s.msgid == msgid

/-- Modelled from the spec: `find_state_ikev1_init` (state.c, not
under src/) looks a state up by the initiator SPI and message id only,
for messages sent before the responder SPI is known. -/
def find_state_ikev1_init (db : List DemuxSa) (ic msgid : Nat) : Option DemuxSa :=
  db.find? fun s => s.icookie == ic && s.msgid == msgid

/-- Modelled from the spec: `find_v1_info_state` (state.c, not under
src/) looks a state up by the full SPI pair and message id. -/
def find_v1_info_state (db : List DemuxSa) (ic rc msgid : Nat) : Option DemuxSa :=
  db.find? fun s => s.icookie == ic && s.rcookie == rc && s.msgid == msgid

/-- Modelled from the spec: `unique_msgid` (ikev1_msgid.c, not under
src/) answers whether the message id has not been seen before on this
SA. -/
def unique_msgid (sa : DemuxSa) (msgid : Nat) : Bool :=
  !(sa.used_msgids.contains msgid)

/-- Modelled from the spec: `IS_ISAKMP_SA_ESTABLISHED` (state.h, not
under src/) answers whether the Phase-1 SA is fully established. -/
def IS_ISAKMP_SA_ESTABLISHED (s : StateKind) : Bool :=
  s == .MAIN_R3 || s == .MAIN_I4 || s == .AGGR_I2 || s == .AGGR_R2

/-- Modelled from the spec: `IS_ISAKMP_AUTHENTICATED` (state.h, not
under src/) answers whether peer authentication has completed: the
established Phase-1 states and the Phase-1.5 (XAUTH / Mode-Config)
states that follow them. -/
def IS_ISAKMP_AUTHENTICATED (s : StateKind) : Bool :=
  IS_ISAKMP_SA_ESTABLISHED s ||
  s == .XAUTH_R0 || s == .XAUTH_R1 || s == .XAUTH_I0 || s == .XAUTH_I1 ||
  s == .MODE_CFG_R0 || s == .MODE_CFG_R1 || s == .MODE_CFG_R2 || s == .MODE_CFG_I1

/-- Modelled from the spec: `IS_ISAKMP_ENCRYPTED` (state.h, not under
src/) answers whether keying material exists, so encrypted messages can
be handled. -/
def IS_ISAKMP_ENCRYPTED (s : StateKind) : Bool :=
  !(s == .UNDEFINED || s == .MAIN_R0 || s == .MAIN_I1 || s == .MAIN_R1 ||
    s == .MAIN_I2 || s == .AGGR_R0 || s == .AGGR_I1 || s == .INFO)

/-! ## Claim C9: the Main / Aggressive Mode branch (ikev1.c lines 1249-1330) -/

/-- Outcome of the Phase-1 demultiplexer branch.  `notify` is a
`SEND_NOTIFICATION` followed by return; `duplicateInitial` is the
hand-off to `ikev1_duplicate` for a re-transmitted initial message. -/
inductive P1DemuxOutcome where
  | notify (n : NotifyType)
  | dropSilent
  | duplicateInitial
  | proceed (from_state : StateKind) (st : Option DemuxSa)
  deriving DecidableEq, Repr

/-- The `ISAKMP_XCHG_AGGR` / `ISAKMP_XCHG_IDPROT` branch of
`process_v1_packet`.  The returned list is the (unchanged) state
database: this branch creates no state - states are built only after
the message has been fully checked, by the transition handler. -/
def process_v1_packet_phase1 (db : List DemuxSa) (hdr : IsakmpHdr) :
    P1DemuxOutcome × List DemuxSa :=
  if hdr.isa_msgid != v1_MAINMODE_MSGID then
    (.notify .INVALID_MESSAGE_ID, db)
  else if hdr.isa_ike_initiator_spi == 0 then
    (.notify .INVALID_COOKIE, db)
  else if hdr.isa_ike_responder_spi == 0 then
    -- initial message from initiator
    if hdrEncrypted hdr then
      (.notify .INVALID_FLAGS, db)
    else
      match find_state_ikev1_init db hdr.isa_ike_initiator_spi hdr.isa_msgid with
      | some _ => (.duplicateInitial, db)
      | none =>
        (.proceed (if hdr.isa_xchg == ISAKMP_XCHG_IDPROT then .MAIN_R0 else .AGGR_R0)
           none, db)
  else
    -- not an initial message
    match find_state_ikev1 db hdr.isa_ike_initiator_spi hdr.isa_ike_responder_spi
        hdr.isa_msgid with
    | some st => (.proceed st.st_state (some st), db)
    | none =>
      match find_state_ikev1_init db hdr.isa_ike_initiator_spi hdr.isa_msgid with
      | some st => (.proceed st.st_state (some st), db)
      | none => (.dropSilent, db)

/-- Counterexample for C9.  The claim quantifies over every Main or
Aggressive Mode packet with a zero responder SPI and the Encryption
flag set, but the message-id check comes first: a packet with a
non-zero message id is rejected with INVALID_MESSAGE_ID, not
INVALID_FLAGS. -/
theorem phase1_encrypted_initial_counterexample :
    (process_v1_packet_phase1 []
        { isa_ike_initiator_spi := 1, isa_ike_responder_spi := 0,
          isa_xchg := ISAKMP_XCHG_IDPROT, isa_flags := ISAKMP_FLAGS_v1_ENCRYPTION,
          isa_msgid := 7, isa_np := ISAKMP_NEXT_SA }).1 =
      P1DemuxOutcome.notify NotifyType.INVALID_MESSAGE_ID ∧
    NotifyType.INVALID_MESSAGE_ID ≠ NotifyType.INVALID_FLAGS := by
  decide

/-- C9 (amended): for every Main or Aggressive Mode packet that passes
the header checks preceding the responder-SPI test (message id zero,
initiator SPI non-zero) and whose responder SPI is zero, if the
Encryption flag is set the packet is rejected with an INVALID_FLAGS
notification and the state database is unchanged. -/
theorem phase1_encrypted_initial_rejected (db : List DemuxSa) (hdr : IsakmpHdr)
    (hmsgid : hdr.isa_msgid = v1_MAINMODE_MSGID)
    (hispi : hdr.isa_ike_initiator_spi ≠ 0)
    (hrspi : hdr.isa_ike_responder_spi = 0)
    (henc : hdrEncrypted hdr = true) :
    process_v1_packet_phase1 db hdr = (.notify .INVALID_FLAGS, db) := by
  simp [process_v1_packet_phase1, hmsgid, hispi, hrspi, henc]

/-- Witness for C9's amended theorem at a concrete packet. -/
theorem phase1_encrypted_initial_rejected_witness :
    process_v1_packet_phase1 []
        { isa_ike_initiator_spi := 1, isa_ike_responder_spi := 0,
          isa_xchg := ISAKMP_XCHG_IDPROT, isa_flags := ISAKMP_FLAGS_v1_ENCRYPTION,
          isa_msgid := 0, isa_np := ISAKMP_NEXT_SA } =
      (.notify .INVALID_FLAGS, []) :=
  phase1_encrypted_initial_rejected [] _ rfl (by decide) rfl (by decide)

/-! ## Claim C10: the Informational branch (ikev1.c lines 1332-1409) -/

/-- Outcome of the Informational demultiplexer branch. -/
inductive InfoDemuxOutcome where
  | dropSilent
  | proceed (from_state : StateKind) (st : Option DemuxSa) (new_iv_set : Bool)
  deriving DecidableEq, Repr

/-- The state lookup of the Informational branch: by the full SPI pair
with msgid 0, falling back to the initiator-SPI-only lookup. -/
def info_state_lookup (db : List DemuxSa) (hdr : IsakmpHdr) : Option DemuxSa :=
  match find_v1_info_state db hdr.isa_ike_initiator_spi hdr.isa_ike_responder_spi
      v1_MAINMODE_MSGID with
  | some st => some st
  | none => find_state_ikev1_init db hdr.isa_ike_initiator_spi v1_MAINMODE_MSGID

/-- The `ISAKMP_XCHG_INFO` branch of `process_v1_packet`.  This branch
never mutates any SA; all early exits drop the message silently (the
source only logs).  On acceptance of a protected Informational,
`init_phase2_iv` seeds the Phase-2 IV from the message id, recorded
here as the `new_iv_set` flag. -/
def process_v1_packet_info (db : List DemuxSa) (hdr : IsakmpHdr) : InfoDemuxOutcome :=
  let st0 := info_state_lookup db hdr
  if hdrEncrypted hdr then
    match st0 with
    | none => .dropSilent
    | some st =>
      if !(IS_ISAKMP_ENCRYPTED st.st_state) then .dropSilent
      else if hdr.isa_msgid == v1_MAINMODE_MSGID then .dropSilent
      else if !(unique_msgid st hdr.isa_msgid) then .dropSilent
      else .proceed .INFO_PROTECTED (some st) true
  else
    match st0 with
    | some st =>
      if IS_ISAKMP_AUTHENTICATED st.st_state then .dropSilent
      else .proceed .INFO (some st) false
    | none => .proceed .INFO none false

/-- C10: an unencrypted Informational addressed to an SA is dropped
without processing exactly when the SA's current state is already
authenticated; otherwise it is processed in STATE_INFO.  The branch
mutates no SA either way, so a drop leaves all state unchanged. -/
theorem info_unencrypted_authenticated_dropped (db : List DemuxSa) (hdr : IsakmpHdr)
    (st : DemuxSa)
    (henc : hdrEncrypted hdr = false)
    (hfound : info_state_lookup db hdr = some st) :
    (IS_ISAKMP_AUTHENTICATED st.st_state = true →
      process_v1_packet_info db hdr = .dropSilent) ∧
    (IS_ISAKMP_AUTHENTICATED st.st_state = false →
      process_v1_packet_info db hdr = .proceed .INFO (some st) false) := by
  constructor <;> intro hauth <;> simp [process_v1_packet_info, henc, hfound, hauth]

/-- Witness for C10: an established (hence authenticated) SA receiving
an unencrypted Informational drops it. -/
theorem info_unencrypted_authenticated_dropped_witness :
    process_v1_packet_info
        [{ icookie := 1, rcookie := 2, msgid := 0, st_state := .MAIN_R3,
           doing_xauth := false, used_msgids := [] }]
        { isa_ike_initiator_spi := 1, isa_ike_responder_spi := 2,
          isa_xchg := ISAKMP_XCHG_INFO, isa_flags := 0,
          isa_msgid := 0, isa_np := ISAKMP_NEXT_N } = .dropSilent :=
  (info_unencrypted_authenticated_dropped _ _
      { icookie := 1, rcookie := 2, msgid := 0, st_state := .MAIN_R3,
        doing_xauth := false, used_msgids := [] }
      (by decide) (by decide)).1 (by decide)

/-! ## Claim C6: the Quick Mode branch (ikev1.c lines 1411-1503) -/

/-- Outcome of the Quick Mode demultiplexer branch.  `proceedNew`
carries the `from_state` (always STATE_QUICK_R0 in the source), the
parent Phase-1 SA after any MODE_CFG_R2 promotion, and the
`new_iv_set` flag recording the `init_phase2_iv` call. -/
inductive QuickDemuxOutcome where
  | notify (n : NotifyType)
  | dropSilent
  | proceedNew (from_state : StateKind) (parent : DemuxSa) (new_iv_set : Bool)
  | proceedContinuation (from_state : StateKind)
  deriving DecidableEq, Repr

/-- In-place state mutation (`change_state` on a state found in the
table): replace the stored SA by its updated copy. -/
def replaceSa (db : List DemuxSa) (old upd : DemuxSa) : List DemuxSa :=
  db.map fun s => if s == old then upd else s

/-- The `ISAKMP_XCHG_QUICK` branch of `process_v1_packet`.  The
SOFTREMOTE_CLIENT_WORKAROUND block is compiled out by default and is
omitted. -/
def process_v1_packet_quick (db : List DemuxSa) (hdr : IsakmpHdr) :
    QuickDemuxOutcome × List DemuxSa :=
  if hdr.isa_ike_initiator_spi == 0 then
    (.notify .INVALID_COOKIE, db)
  else if hdr.isa_ike_responder_spi == 0 then
    (.notify .INVALID_COOKIE, db)
  else if hdr.isa_msgid == v1_MAINMODE_MSGID then
    (.notify .INVALID_MESSAGE_ID, db)
  else
    match find_state_ikev1 db hdr.isa_ike_initiator_spi hdr.isa_ike_responder_spi
        hdr.isa_msgid with
    | some st =>
      if st.doing_xauth then (.dropSilent, db)
      else (.proceedContinuation st.st_state, db)
    | none =>
      -- no Quick Mode state; look for the parent Phase-1 SA
      match find_state_ikev1 db hdr.isa_ike_initiator_spi hdr.isa_ike_responder_spi
          v1_MAINMODE_MSGID with
      | none => (.dropSilent, db)
      | some st =>
        if st.doing_xauth then (.dropSilent, db)
        else
          let st1 := if st.st_state == .MODE_CFG_R2 then
              { st with st_state := .MAIN_R3 } else st
          let db1 := if st.st_state == .MODE_CFG_R2 then replaceSa db st st1 else db
          if !(IS_ISAKMP_SA_ESTABLISHED st1.st_state) then
            (.notify .PAYLOAD_MALFORMED, db1)
          else if !(unique_msgid st1 hdr.isa_msgid) then
            (.notify .INVALID_MESSAGE_ID, db1)
          else
            (.proceedNew .QUICK_R0 st1 true, db1)

/-- C6: the Quick Mode demultiplexer rejects zero SPIs and a zero
message id; with no (SPIs, msgid) state it resolves the parent Phase-1
SA by (SPIs, 0); it drops the packet if that SA is doing XAUTH; a
parent in MODE_CFG_R2 is first promoted to MAIN_R3 (also in the stored
database); it rejects unless the (promoted) parent is fully established
and the message id is previously unseen; on acceptance the Phase-2 IV
is initialized and the transition runs from STATE_QUICK_R0. -/
theorem process_v1_packet_quick_spec (db : List DemuxSa) (hdr : IsakmpHdr) :
    (hdr.isa_ike_initiator_spi = 0 ∨ hdr.isa_ike_responder_spi = 0 →
      process_v1_packet_quick db hdr = (.notify .INVALID_COOKIE, db)) ∧
    (hdr.isa_ike_initiator_spi ≠ 0 → hdr.isa_ike_responder_spi ≠ 0 →
      hdr.isa_msgid = 0 →
      process_v1_packet_quick db hdr = (.notify .INVALID_MESSAGE_ID, db)) ∧
    (∀ parent : DemuxSa,
      hdr.isa_ike_initiator_spi ≠ 0 →
      hdr.isa_ike_responder_spi ≠ 0 →
      hdr.isa_msgid ≠ 0 →
      find_state_ikev1 db hdr.isa_ike_initiator_spi hdr.isa_ike_responder_spi
        hdr.isa_msgid = none →
      find_state_ikev1 db hdr.isa_ike_initiator_spi hdr.isa_ike_responder_spi
        v1_MAINMODE_MSGID = some parent →
      (parent.doing_xauth = true →
        process_v1_packet_quick db hdr = (.dropSilent, db)) ∧
      (parent.doing_xauth = false →
        (let parent1 := if parent.st_state == .MODE_CFG_R2 then
            { parent with st_state := .MAIN_R3 } else parent
         let db1 := if parent.st_state == .MODE_CFG_R2 then
            replaceSa db parent parent1 else db
         (IS_ISAKMP_SA_ESTABLISHED parent1.st_state = false →
           process_v1_packet_quick db hdr = (.notify .PAYLOAD_MALFORMED, db1)) ∧
         (IS_ISAKMP_SA_ESTABLISHED parent1.st_state = true →
           unique_msgid parent1 hdr.isa_msgid = false →
           process_v1_packet_quick db hdr = (.notify .INVALID_MESSAGE_ID, db1)) ∧
         (IS_ISAKMP_SA_ESTABLISHED parent1.st_state = true →
           unique_msgid parent1 hdr.isa_msgid = true →
           process_v1_packet_quick db hdr = (.proceedNew .QUICK_R0 parent1 true, db1))))) := by
  refine ⟨?_, ?_, ?_⟩
  · rintro (h0 | h0)
    · simp [process_v1_packet_quick, h0]
    · by_cases hi0 : hdr.isa_ike_initiator_spi = 0
      · simp [process_v1_packet_quick, hi0]
      · have hi : (hdr.isa_ike_initiator_spi == 0) = false := by
          simpa using hi0
        simp [process_v1_packet_quick, hi, h0]
  · intro hispi hrspi h0
    have hi : (hdr.isa_ike_initiator_spi == 0) = false := by
      simpa using hispi
    have hr : (hdr.isa_ike_responder_spi == 0) = false := by
      simpa using hrspi
    simp [process_v1_packet_quick, hi, hr, h0, v1_MAINMODE_MSGID]
  · intro parent hispi hrspi hmsgid hcont hparent
    have hi : (hdr.isa_ike_initiator_spi == 0) = false := by
      simpa using hispi
    have hr : (hdr.isa_ike_responder_spi == 0) = false := by
      simpa using hrspi
    have hm : (hdr.isa_msgid == v1_MAINMODE_MSGID) = false := by
      simpa [v1_MAINMODE_MSGID] using hmsgid
    obtain ⟨ic, rc, mid, sstate, dx, used⟩ := parent
    refine ⟨fun hx => ?_, fun hx => ?_⟩
    · simp only [DemuxSa.doing_xauth] at hx
      subst hx
      simp [process_v1_packet_quick, hi, hr, hm, hcont, hparent]
    · simp only [DemuxSa.doing_xauth] at hx
      subst hx
      by_cases hmc : sstate = StateKind.MODE_CFG_R2
      · subst hmc
        refine ⟨fun hest => ?_, fun hest huniq => ?_, fun hest huniq => ?_⟩ <;>
          simp_all [process_v1_packet_quick, hi, hr, hm, hcont, hparent,
            IS_ISAKMP_SA_ESTABLISHED]
      · refine ⟨fun hest => ?_, fun hest huniq => ?_, fun hest huniq => ?_⟩ <;>
          simp_all [process_v1_packet_quick, hi, hr, hm, hcont, hparent, hmc]

/-- Witness for C6: a parent SA in MODE_CFG_R2 found by (SPIs, 0) is
promoted to MAIN_R3 and a fresh message id is accepted into Quick Mode. -/
theorem process_v1_packet_quick_spec_witness :
    process_v1_packet_quick
        [{ icookie := 1, rcookie := 2, msgid := 0, st_state := .MODE_CFG_R2,
           doing_xauth := false, used_msgids := [5] }]
        { isa_ike_initiator_spi := 1, isa_ike_responder_spi := 2,
          isa_xchg := ISAKMP_XCHG_QUICK, isa_flags := ISAKMP_FLAGS_v1_ENCRYPTION,
          isa_msgid := 9, isa_np := ISAKMP_NEXT_HASH } =
      (.proceedNew .QUICK_R0
        { icookie := 1, rcookie := 2, msgid := 0, st_state := .MAIN_R3,
          doing_xauth := false, used_msgids := [5] } true,
       [{ icookie := 1, rcookie := 2, msgid := 0, st_state := .MAIN_R3,
          doing_xauth := false, used_msgids := [5] }]) := by
  have h := (process_v1_packet_quick_spec
      [{ icookie := 1, rcookie := 2, msgid := 0, st_state := .MODE_CFG_R2,
         doing_xauth := false, used_msgids := [5] }]
      { isa_ike_initiator_spi := 1, isa_ike_responder_spi := 2,
        isa_xchg := ISAKMP_XCHG_QUICK, isa_flags := ISAKMP_FLAGS_v1_ENCRYPTION,
        isa_msgid := 9, isa_np := ISAKMP_NEXT_HASH }).2.2
      { icookie := 1, rcookie := 2, msgid := 0, st_state := .MODE_CFG_R2,
        doing_xauth := false, used_msgids := [5] }
      (by decide) (by decide) (by decide) (by decide) (by decide)
  have h2 := (h.2 rfl).2.2 (by decide) (by decide)
  simpa [replaceSa] using h2

/-! ## Claim C7: IKE fragment buffering and reassembly (ikev1.c lines
1699-1836) -/

/-- A buffered fragment (`struct ike_frag`): its index (1..16), the
last-fragment flag, and the payload bytes. -/
structure IkeFrag where
  index : Nat
  last : Bool
  data : List Nat
  deriving DecidableEq, Repr

/-- Insertion of a fragment into the per-SA list, kept sorted by
index; a fragment with an index already present replaces the old one
(ikev1.c lines 1753-1783). -/
def insertFrag : List IkeFrag → IkeFrag → List IkeFrag
  | [], f => [f]
  | g :: rest, f =>
    if g.index > f.index then f :: g :: rest
    else if g.index = f.index then f :: rest
    else g :: insertFrag rest f

/-- The `last_frag_index` scan folded over the fragment list: the
index of the last fragment seen carrying the last-flag, 0 when none. -/
def lastFragIndex (frags : List IkeFrag) : Nat :=
  frags.foldl (fun acc g => if g.last then g.index else acc) 0

/-- The completeness walk of the reassembly code: indices must run
1, 2, 3, ... consecutively; on reaching `lastIdx` the accumulated
bytes are released; a gap or list end aborts with no message. -/
def reassembleWalk (lastIdx : Nat) : List IkeFrag → Nat → List Nat → Option (List Nat)
  | [], _, _ => none
  | f :: rest, prev, acc =>
    if f.index ≠ prev + 1 then none
    else if f.index = lastIdx then some (acc ++ f.data)
    else reassembleWalk lastIdx rest f.index (acc ++ f.data)

/-- Reassembly over the buffered fragment list: nothing is released
until a last-flagged fragment exists and every index from 1 up to it
is present; then the concatenation in list (= index) order is released
and handed to `process_packet` as an ordinary datagram. -/
def reassemble (frags : List IkeFrag) : Option (List Nat) :=
  let lastIdx := lastFragIndex frags
  if lastIdx = 0 then none
  else reassembleWalk lastIdx frags 0 []

/-- Helper: with every fragment's last-flag equivalent to having index
N, the `last_frag_index` scan yields N when index N is buffered and 0
otherwise. -/
theorem lastFragIndex_fold (N : Nat) (frags : List IkeFrag)
    (h : ∀ f ∈ frags, f.last = decide (f.index = N)) (a : Nat) :
    frags.foldl (fun acc g => if g.last then g.index else acc) a =
      if N ∈ frags.map (·.index) then N else a := by
  induction frags generalizing a with
  | nil => simp
  | cons f rest ih =>
    have hf := h f (List.mem_cons_self f rest)
    have hrest : ∀ g ∈ rest, g.last = decide (g.index = N) :=
      fun g hg => h g (List.mem_cons_of_mem f hg)
    simp only [List.foldl_cons, List.map_cons, List.mem_cons, hf]
    by_cases hfi : f.index = N
    · rw [if_pos (by simp [hfi]), ih hrest]
      simp [hfi]
    · rw [if_neg (by simp [hfi]), ih hrest]
      have hne : ¬(N = f.index) := fun hh => hfi hh.symm
      simp [hne]

/-- Helper: with every fragment's last-flag equivalent to having index
N, the `last_frag_index` scan yields N when index N is buffered and 0
otherwise. -/
theorem lastFragIndex_of_flags (frags : List IkeFrag) (N : Nat)
    (h : ∀ f ∈ frags, f.last = decide (f.index = N)) :
    lastFragIndex frags = if N ∈ frags.map (·.index) then N else 0 :=
  lastFragIndex_fold N frags h 0

/-- Helper: a successful walk visited every index in (prev, lastIdx]. -/
theorem reassembleWalk_mem (lastIdx : Nat) (frags : List IkeFrag) (prev : Nat)
    (acc : List Nat) (r : List Nat)
    (h : reassembleWalk lastIdx frags prev acc = some r) :
    ∀ j, prev < j → j ≤ lastIdx → j ∈ frags.map (·.index) := by
  induction frags generalizing prev acc with
  | nil => simp [reassembleWalk] at h
  | cons f rest ih =>
    intro j hj1 hj2
    simp only [reassembleWalk] at h
    by_cases hidx : f.index = prev + 1
    · simp only [hidx, if_neg (by omega : ¬(prev + 1 ≠ prev + 1))] at h
      by_cases hl : prev + 1 = lastIdx
      · -- walk released here: the interval (prev, lastIdx] is {prev+1}
        have : j = prev + 1 := by omega
        simp [List.map_cons, hidx, this]
      · simp only [if_neg hl] at h
        rcases Nat.eq_or_lt_of_le (Nat.succ_le_of_lt hj1) with hj | hj
        · simp [List.map_cons, hidx, ← hj]
        · have := ih (prev + 1) (acc ++ f.data) h j hj hj2
          simp [List.map_cons, this]
    · rw [if_pos] at h
      · exact absurd h (by simp)
      · omega

/-- Helper: when the buffered indices are exactly prev+1, ..., prev+k,
the walk releases the accumulated bytes followed by all fragment
payloads in list order. -/
theorem reassembleWalk_complete (k : Nat) (frags : List IkeFrag) (prev : Nat)
    (acc : List Nat)
    (hidx : frags.map (·.index) = List.range' (prev + 1) k)
    (hk : 1 ≤ k) :
    reassembleWalk (prev + k) frags prev acc =
      some (acc ++ (frags.map (·.data)).flatten) := by
  induction frags generalizing prev acc k with
  | nil =>
    simp only [List.map_nil] at hidx
    have h0 : (0 : Nat) = k := by simpa using congrArg List.length hidx
    omega
  | cons f rest ih =>
    cases k with
    | zero => omega
    | succ k1 =>
      rw [List.range'_succ] at hidx
      simp only [List.map_cons, List.cons.injEq] at hidx
      obtain ⟨hf, hrest⟩ := hidx
      simp only [reassembleWalk, hf]
      rw [if_neg (by omega)]
      cases k1 with
      | zero =>
        rw [if_pos (by omega)]
        have hrnil : rest = [] := by
          simpa using congrArg List.length hrest
        simp [hrnil]
      | succ k2 =>
        rw [if_neg (by omega)]
        have harith : prev + (k2 + 1 + 1) = (prev + 1) + (k2 + 1) := by omega
        rw [harith]
        rw [ih (k2 + 1) (prev + 1) (acc ++ f.data) hrest (by omega)]
        simp

/-- Helper: inserting into a strictly index-sorted fragment list keeps
the new fragment and drops exactly the old fragment with the same
index (ikev1.c lines 1763-1773). -/
theorem insertFrag_replaces (l : List IkeFrag) (f : IkeFrag)
    (hsort : l.Pairwise (fun a b => a.index < b.index)) :
    f ∈ insertFrag l f ∧
    ∀ g ∈ insertFrag l f, g = f ∨ (g ∈ l ∧ g.index ≠ f.index) := by
  induction l with
  | nil => simp [insertFrag]
  | cons g0 rest ih =>
    rcases List.pairwise_cons.mp hsort with ⟨hhd, hrest⟩
    simp only [insertFrag]
    by_cases h1 : g0.index > f.index
    · rw [if_pos h1]
      refine ⟨List.mem_cons_self _ _, ?_⟩
      intro g hg
      rcases List.mem_cons.mp hg with hg | hg
      · exact Or.inl hg
      · rcases List.mem_cons.mp hg with hg | hg
        · subst hg
          exact Or.inr ⟨List.mem_cons_self _ _, by omega⟩
        · have := hhd g hg
          exact Or.inr ⟨List.mem_cons_of_mem _ hg, by omega⟩
    · rw [if_neg h1]
      by_cases h2 : g0.index = f.index
      · rw [if_pos h2]
        refine ⟨List.mem_cons_self _ _, ?_⟩
        intro g hg
        rcases List.mem_cons.mp hg with hg | hg
        · exact Or.inl hg
        · have := hhd g hg
          exact Or.inr ⟨List.mem_cons_of_mem _ hg, by omega⟩
      · rw [if_neg h2]
        obtain ⟨hmem, hall⟩ := ih hrest
        refine ⟨List.mem_cons_of_mem _ hmem, ?_⟩
        intro g hg
        rcases List.mem_cons.mp hg with hg | hg
        · exact Or.inr ⟨hg ▸ List.mem_cons_self _ _, by subst hg; omega⟩
        · rcases hall g hg with hcase | ⟨hcase, hne⟩
          · exact Or.inl hcase
          · exact Or.inr ⟨List.mem_cons_of_mem _ hcase, hne⟩

/-- C7: with fragments buffered at indices 1..N and exactly the index-N
fragment carrying the last-flag, reassembly releases one message equal
to the concatenation of the payloads in index order (handed back to the
demultiplexer as an ordinary datagram); if any index in 1..N is
missing, no message is released; and buffering a fragment whose index
is already present replaces the earlier fragment. -/
theorem ikev1_fragment_reassembly_spec (frags : List IkeFrag) (N j : Nat)
    (hN : 1 ≤ N)
    (hlast : ∀ f ∈ frags, f.last = decide (f.index = N)) :
    (frags.map (·.index) = List.range' 1 N →
      reassemble frags = some ((frags.map (·.data)).flatten)) ∧
    (1 ≤ j → j ≤ N → j ∉ frags.map (·.index) → reassemble frags = none) ∧
    (∀ (l : List IkeFrag) (f : IkeFrag), l.Pairwise (fun a b => a.index < b.index) →
      f ∈ insertFrag l f ∧
      ∀ g ∈ insertFrag l f, g = f ∨ (g ∈ l ∧ g.index ≠ f.index)) := by
  refine ⟨?_, ?_, fun l f hs => insertFrag_replaces l f hs⟩
  · intro hidx
    have hmem : N ∈ frags.map (·.index) := by
      rw [hidx]
      simp only [List.mem_range'_1]
      omega
    have hli : lastFragIndex frags = N := by
      rw [lastFragIndex_of_flags frags N hlast, if_pos hmem]
    simp only [reassemble, hli]
    rw [if_neg (by omega)]
    have := reassembleWalk_complete N frags 0 [] (by simpa using hidx) hN
    simpa using this
  · intro hj1 hj2 hj3
    by_cases hmem : N ∈ frags.map (·.index)
    · have hli : lastFragIndex frags = N := by
        rw [lastFragIndex_of_flags frags N hlast, if_pos hmem]
      simp only [reassemble, hli]
      rw [if_neg (by omega)]
      cases hcase : reassembleWalk N frags 0 [] with
      | none => rfl
      | some r =>
        exact absurd (reassembleWalk_mem N frags 0 [] r hcase j (by omega) hj2) hj3
    · have hli : lastFragIndex frags = 0 := by
        rw [lastFragIndex_of_flags frags N hlast, if_neg hmem]
      simp [reassemble, hli]

/-- Witness for C7: fragments at indices 1 and 2, the second carrying
the last-flag, reassemble to the concatenated payload. -/
theorem ikev1_fragment_reassembly_spec_witness :
    reassemble
        [{ index := 1, last := false, data := [10, 11] },
         { index := 2, last := true, data := [20] }] = some [10, 11, 20] := by
  have h := (ikev1_fragment_reassembly_spec
      [{ index := 1, last := false, data := [10, 11] },
       { index := 2, last := true, data := [20] }] 2 1
      (by decide) (by decide)).1 (by decide)
  simpa using h

/-! ## Claim C8: connection refinement recursion in
`ikev1_decode_peer_id` (ikev1.c lines 3080-3296)

The Main Mode responder branch may rebind the SA to a better-matching
connection and re-run ID decoding via the recursive call at line 3285.
`refine_host_connection` lives in connections.c, outside src/, and is
modelled from the spec as a best-match search over the connection
table, a function of the claimed peer identity (and the table) only -
in particular, independent of the connection currently bound. -/

/-- A peer identity: kind plus value bytes, abstracted to numbers. -/
structure PeerId where
  kind : Nat
  val : Nat
  deriving DecidableEq, Repr

/-- The connection fields the refinement logic reads. -/
structure Conn where
  cid : Nat
  that_id : PeerId
  deriving DecidableEq, Repr

/-- Modelled from the spec: `refine_host_connection` (connections.c,
not under src/) finds the best matching connection for the peer's
claimed identity. -/
def refine_host_connection (tbl : List Conn) (peer : PeerId) : Option Conn :=
  tbl.find? fun c => c.that_id == peer

/-- Result of the responder ID-decoding tail: failure, or success with
the finally bound connection and the number of connection switches
performed. -/
inductive DecodeIdResult where
  | failed
  | ok (c : Conn) (switches : Nat)
  | outOfFuel
  deriving DecidableEq, Repr

/-- The Main Mode responder tail of `ikev1_decode_peer_id`: run the
refinement; if no better connection exists, keep the current one when
the peer identity matches (or an alternative id was already accepted),
else fail; if a better connection is found, rebind and redo the
decoding.  The structural recursion of the source is exposed through
an explicit fuel argument so that the depth can be measured. -/
def ikev1_decode_peer_id_responder (tbl : List Conn) (peer : PeerId)
    (st_peer_alt_id : Bool) : Nat → Conn → DecodeIdResult
  | 0, _ => .outOfFuel
  | fuel + 1, c =>
    match refine_host_connection tbl peer with
    | none =>
      if !st_peer_alt_id && !(c.that_id == peer) then .failed
      else .ok c 0
    | some r =>
      if r ≠ c then
        match ikev1_decode_peer_id_responder tbl peer st_peer_alt_id fuel r with
        | .ok c1 n => .ok c1 (n + 1)
        | .failed => .failed
        | .outOfFuel => .outOfFuel
      else .ok c 0

/-- Helper: with a failed refinement, the responder decoding keeps or
rejects the current connection without recursing. -/
theorem decode_peer_id_two_none (tbl : List Conn) (peer : PeerId) (alt : Bool)
    (c : Conn) (href : refine_host_connection tbl peer = none) :
    ikev1_decode_peer_id_responder tbl peer alt 2 c =
      (if !alt && !(c.that_id == peer) then DecodeIdResult.failed
       else DecodeIdResult.ok c 0) := by
  simp [ikev1_decode_peer_id_responder, href]

/-- Helper: with a successful refinement, the responder decoding keeps
the current connection or switches once: re-running the refinement
after rebinding returns the same best match, so the recursive call
takes the no-switch branch. -/
theorem decode_peer_id_two_some (tbl : List Conn) (peer : PeerId) (alt : Bool)
    (c r : Conn) (href : refine_host_connection tbl peer = some r) :
    ikev1_decode_peer_id_responder tbl peer alt 2 c =
      (if r = c then DecodeIdResult.ok c 0 else DecodeIdResult.ok r 1) := by
  by_cases hrc : r = c
  · simp [ikev1_decode_peer_id_responder, href, hrc]
  · simp [ikev1_decode_peer_id_responder, href, hrc]

/-- C8: with fuel 2 the responder ID decoding never runs out of fuel,
and on success it performed at most one connection switch: rebinding
goes to the refinement's best match, and the recursive re-decoding
cannot itself trigger a further switch. -/
theorem ikev1_decode_peer_id_depth_le_one (tbl : List Conn) (peer : PeerId)
    (alt : Bool) (c : Conn) :
    ikev1_decode_peer_id_responder tbl peer alt 2 c ≠ DecodeIdResult.outOfFuel ∧
    ∀ c1 n, ikev1_decode_peer_id_responder tbl peer alt 2 c = DecodeIdResult.ok c1 n →
      n ≤ 1 := by
  cases href : refine_host_connection tbl peer with
  | none =>
    rw [decode_peer_id_two_none tbl peer alt c href]
    split_ifs
    · exact ⟨by simp, fun c1 n hh => by simp at hh⟩
    · refine ⟨by simp, fun c1 n hh => ?_⟩
      simp only [DecodeIdResult.ok.injEq] at hh
      omega
  | some r =>
    rw [decode_peer_id_two_some tbl peer alt c r href]
    split_ifs
    · refine ⟨by simp, fun c1 n hh => ?_⟩
      simp only [DecodeIdResult.ok.injEq] at hh
      omega
    · refine ⟨by simp, fun c1 n hh => ?_⟩
      simp only [DecodeIdResult.ok.injEq] at hh
      omega

/-- Witness for C8: with two connections and a peer identity matching
the second, decoding bound to the first switches exactly once. -/
theorem ikev1_decode_peer_id_depth_le_one_witness :
    ikev1_decode_peer_id_responder
        [{ cid := 1, that_id := { kind := 1, val := 10 } },
         { cid := 2, that_id := { kind := 1, val := 20 } }]
        { kind := 1, val := 20 } false 2
        { cid := 2, that_id := { kind := 1, val := 20 } } ≠
      DecodeIdResult.outOfFuel ∧
    (1 : Nat) ≤ 1 :=
  ⟨(ikev1_decode_peer_id_depth_le_one _ _ _ _).1, Nat.le_refl 1⟩

/-! ## Claim C5: payload decoding failures and their notifications
(ikev1.c `process_packet_tail`, lines 2044-2366) -/

/-- Modelled from the spec: `IS_PHASE1` (state.h, not under src/) -
the Main and Aggressive Mode states. -/
def IS_PHASE1 (s : StateKind) : Bool :=
  s == .MAIN_R0 || s == .MAIN_I1 || s == .MAIN_R1 || s == .MAIN_I2 ||
  s == .MAIN_R2 || s == .MAIN_I3 || s == .MAIN_R3 || s == .MAIN_I4 ||
  s == .AGGR_R0 || s == .AGGR_I1 || s == .AGGR_R1 || s == .AGGR_I2 || s == .AGGR_R2

/-- Modelled from the spec: `IS_PHASE15` (state.h, not under src/) -
the XAUTH and Mode-Config states. -/
def IS_PHASE15 (s : StateKind) : Bool :=
  s == .XAUTH_R0 || s == .XAUTH_R1 || s == .XAUTH_I0 || s == .XAUTH_I1 ||
  s == .MODE_CFG_R0 || s == .MODE_CFG_R1 || s == .MODE_CFG_R2 || s == .MODE_CFG_I1

/-- Modelled from the spec: `IS_QUICK` (state.h, not under src/) - the
Quick Mode states. -/
def IS_QUICK (s : StateKind) : Bool :=
  s == .QUICK_R0 || s == .QUICK_I1 || s == .QUICK_R1 || s == .QUICK_I2 ||
  s == .QUICK_R2

/-- Modelled from the spec: the size of the message digest table
(demux.h, not under src/); the exact value does not matter to any
claim. -/
def PAYLIMIT : Nat := 30

/-- One payload in the linked next-payload chain: the type number
announced for it by its predecessor (or the header), and whether
`in_struct` succeeds on its body. -/
structure RawPayload where
  ptype : Nat
  wellformed : Bool
  deriving DecidableEq, Repr

/-- Payload types with a descriptor in `v1_payload_desc` (packet.c).
ID is absent: it needs special phase-dependent handling; SAK and the
draft NAT-T numbers are also handled specially. -/
def v1_payload_known (np : Nat) : Bool :=
  np == ISAKMP_NEXT_SA || np == ISAKMP_NEXT_KE || np == ISAKMP_NEXT_CERT ||
  np == ISAKMP_NEXT_CR || np == ISAKMP_NEXT_HASH || np == ISAKMP_NEXT_SIG ||
  np == ISAKMP_NEXT_NONCE || np == ISAKMP_NEXT_N || np == ISAKMP_NEXT_D ||
  np == ISAKMP_NEXT_VID || np == ISAKMP_NEXT_MCFG_ATTR ||
  np == ISAKMP_NEXT_NATD_RFC || np == ISAKMP_NEXT_NATOA_RFC

/-- The kinds of rejection `process_packet_tail` can produce before
dispatching a handler. -/
inductive DecodeFailure where
  | tooManyPayloads
  | malformedPayload
  | unknownPayload
  | unexpectedPayload
  | missingPayloads
  | hashFailed
  | p1SaNotFirst
  | qmNoLeadingHash
  | qmSaMisplaced
  | qmIdCount
  | qmIdNotAdjacent
  deriving DecidableEq, Repr

/-- The guarded notification idiom of the source: every rejection site
in the decode loop reads `if (!md->encrypted) SEND_NOTIFICATION(n)`.
The emitted notification is recorded with the failure; `none` is a
silent drop. -/
def guardedErr (md_encrypted : Bool) (f : DecodeFailure) (n : NotifyType) :
    DecodeFailure × Option NotifyType :=
  (f, if md_encrypted then none else some n)

/-- Clear the bits of `mask` from `set` (`set &= ~mask`). -/
def lsetClear (set mask : Nat) : Nat := set ^^^ (set &&& mask)

/-- The acceptance checks for one payload with resolved descriptor
(ikev1.c lines 2171-2213): the unexpected-by-state test against the
still-needed, optional and always-acceptable masks, then the
`in_struct` demarshalling.  On success the payload's bit is cleared
from the needed mask. -/
def v1_digest_step_check (smc : StateV1Microcode) (md_encrypted : Bool)
    (pd : RawPayload) (np : Nat) (needed : Nat) :
    Except (DecodeFailure × Option NotifyType) Nat :=
  let s := LELEM np
  if LDISJOINT s (needed ||| smc.opt_payloads ||| LELEM ISAKMP_NEXT_VID |||
      LELEM ISAKMP_NEXT_N ||| LELEM ISAKMP_NEXT_D ||| LELEM ISAKMP_NEXT_CR |||
      LELEM ISAKMP_NEXT_CERT) then
    .error (guardedErr md_encrypted .unexpectedPayload .INVALID_PAYLOAD_TYPE)
  else if !pd.wellformed then
    .error (guardedErr md_encrypted .malformedPayload .PAYLOAD_MALFORMED)
  else
    .ok (lsetClear needed s)

/-- The payload-digest loop of `process_packet_tail` (lines 2054-2253):
walk the next-payload chain, handling the NAT-T policy gate, the ID
descriptor split, draft NAT-T remapping, the silent SAK skip, the
unknown- and unexpected-payload rejections, malformed bodies and the
digest cap; accumulate the digest (list of recorded payload types, in
arrival order) and consume the required-payload mask. -/
def v1_digest_payloads (fromState : StateKind) (smc : StateV1Microcode)
    (md_encrypted stPresent aggressive natTRfc : Bool) :
    List RawPayload → Nat → List Nat →
    Except (DecodeFailure × Option NotifyType) (List Nat)
  | [], needed, digest =>
    -- np == ISAKMP_NEXT_NONE: check that all mandatory payloads appeared
    if needed ≠ 0 then
      .error (guardedErr md_encrypted .missingPayloads .PAYLOAD_MALFORMED)
    else
      .ok digest
  | pd :: rest, needed, digest =>
    if digest.length ≥ PAYLIMIT then
      .error (guardedErr md_encrypted .tooManyPayloads .PAYLOAD_MALFORMED)
    else
      -- NAT-T policy gate (Main Mode only) may null the descriptor
      let natGateNulled :=
        stPresent && !aggressive &&
        (pd.ptype == ISAKMP_NEXT_NATD_RFC || pd.ptype == ISAKMP_NEXT_NATOA_RFC) &&
        !natTRfc
      if v1_payload_known pd.ptype && !natGateNulled then
        match v1_digest_step_check smc md_encrypted pd pd.ptype needed with
        | .error e => .error e
        | .ok needed1 =>
          v1_digest_payloads fromState smc md_encrypted stPresent aggressive natTRfc
            rest needed1 (digest ++ [pd.ptype])
      else if pd.ptype == ISAKMP_NEXT_ID then
        -- phase-dependent ID descriptor; always resolvable
        match v1_digest_step_check smc md_encrypted pd ISAKMP_NEXT_ID needed with
        | .error e => .error e
        | .ok needed1 =>
          v1_digest_payloads fromState smc md_encrypted stPresent aggressive natTRfc
            rest needed1 (digest ++ [ISAKMP_NEXT_ID])
      else if pd.ptype == ISAKMP_NEXT_NATD_DRAFTS then
        match v1_digest_step_check smc md_encrypted pd ISAKMP_NEXT_NATD_RFC needed with
        | .error e => .error e
        | .ok needed1 =>
          v1_digest_payloads fromState smc md_encrypted stPresent aggressive natTRfc
            rest needed1 (digest ++ [ISAKMP_NEXT_NATD_RFC])
      else if pd.ptype == ISAKMP_NEXT_NATOA_DRAFTS then
        match v1_digest_step_check smc md_encrypted pd ISAKMP_NEXT_NATOA_RFC needed with
        | .error e => .error e
        | .ok needed1 =>
          v1_digest_payloads fromState smc md_encrypted stPresent aggressive natTRfc
            rest needed1 (digest ++ [ISAKMP_NEXT_NATOA_RFC])
      else if pd.ptype == ISAKMP_NEXT_SAK then
        -- demarshall and silently discard the payload
        if !pd.wellformed then
          .error (guardedErr md_encrypted .malformedPayload .PAYLOAD_MALFORMED)
        else
          v1_digest_payloads fromState smc md_encrypted stPresent aggressive natTRfc
            rest needed digest
      else
        .error (guardedErr md_encrypted .unknownPayload .INVALID_PAYLOAD_TYPE)

/-- The digest positions at which payloads of one type sit, in arrival
order: the per-type chain of the message digest. -/
def chainPositions (digest : List Nat) (np : Nat) : List Nat :=
  (digest.enum.filter (fun p => p.2 == np)).map (·.1)

/-- The decode portion of `process_packet_tail` after decryption: the
payload-digest loop, the HASH integrity gate (`check_v1_HASH`, whose
cryptographic comparison is the external input `hashOk`), and the
ordering constraints: Phase 1 and 1.5 messages with an SA payload must
start with it; Quick Mode messages must start with HASH, keep all SA
payloads contiguous from position 1, and carry ID payloads only as an
adjacent pair.  On success the handler would be dispatched with the
digest. -/
def process_packet_tail_decode (fromState : StateKind) (smc : StateV1Microcode)
    (md_encrypted stPresent aggressive natTRfc hashOk : Bool)
    (payloads : List RawPayload) :
    Except (DecodeFailure × Option NotifyType) (List Nat) :=
  match v1_digest_payloads fromState smc md_encrypted stPresent aggressive natTRfc
      payloads smc.req_payloads [] with
  | .error e => .error e
  | .ok digest =>
    -- check_v1_HASH failure: drop, no notification
    if smc.hash_type != V1HashType.NONE && !hashOk then
      .error (.hashFailed, none)
    else
      let hdr_np :=
        match payloads with
        | [] => ISAKMP_NEXT_NONE
        | pd :: _ => pd.ptype
      if IS_PHASE1 fromState || IS_PHASE15 fromState then
        if digest.contains ISAKMP_NEXT_SA && hdr_np != ISAKMP_NEXT_SA then
          .error (guardedErr md_encrypted .p1SaNotFirst .PAYLOAD_MALFORMED)
        else
          .ok digest
      else if IS_QUICK fromState then
        if hdr_np != ISAKMP_NEXT_HASH then
          .error (guardedErr md_encrypted .qmNoLeadingHash .PAYLOAD_MALFORMED)
        else if chainPositions digest ISAKMP_NEXT_SA ≠
            List.range' 1 (chainPositions digest ISAKMP_NEXT_SA).length then
          .error (guardedErr md_encrypted .qmSaMisplaced .PAYLOAD_MALFORMED)
        else
          match chainPositions digest ISAKMP_NEXT_ID with
          | [] => .ok digest
          | [i, j] =>
            if j ≠ i + 1 then
              -- notification sent without the encrypted guard in the source
              .error (.qmIdNotAdjacent, some .PAYLOAD_MALFORMED)
            else
              .ok digest
          | _ =>
            -- notification sent without the encrypted guard in the source
            .error (.qmIdCount, some .PAYLOAD_MALFORMED)
      else
        .ok digest

/-- What `process_packet_tail` does to the SA's state: a decode
rejection returns before the handler and dispatcher run, leaving the
current state; only a fully accepted message reaches the dispatcher. -/
def process_packet_tail_next_state (cur dispatched : StateKind)
    (fromState : StateKind) (smc : StateV1Microcode)
    (md_encrypted stPresent aggressive natTRfc hashOk : Bool)
    (payloads : List RawPayload) : StateKind :=
  match process_packet_tail_decode fromState smc md_encrypted stPresent aggressive
      natTRfc hashOk payloads with
  | .error _ => cur
  | .ok _ => dispatched

/-- Helper: a guarded rejection notifies PAYLOAD_MALFORMED or
INVALID_PAYLOAD_TYPE on plaintext and stays silent on encrypted
input. -/
theorem err_pair_spec (enc : Bool) (f0 : DecodeFailure) (n : NotifyType)
    (f : DecodeFailure) (notif : Option NotifyType)
    (heq : guardedErr enc f0 n = (f, notif))
    (hn : n = NotifyType.PAYLOAD_MALFORMED ∨ n = NotifyType.INVALID_PAYLOAD_TYPE) :
    (enc = true → notif = none) ∧
    (enc = false → notif = some NotifyType.PAYLOAD_MALFORMED ∨
      notif = some NotifyType.INVALID_PAYLOAD_TYPE) := by
  simp only [guardedErr, Prod.mk.injEq] at heq
  obtain ⟨hf, hnot⟩ := heq
  constructor
  · intro he
    subst he
    subst hnot
    simp
  · intro he
    subst he
    subst hnot
    simpa using hn

/-- Helper: a rejected step check notifies through the guarded
idiom. -/
theorem v1_digest_step_check_err (smc : StateV1Microcode) (enc : Bool)
    (pd : RawPayload) (np : Nat) (needed : Nat)
    (f : DecodeFailure) (notif : Option NotifyType)
    (h : v1_digest_step_check smc enc pd np needed = .error (f, notif)) :
    (enc = true → notif = none) ∧
    (enc = false → notif = some NotifyType.PAYLOAD_MALFORMED ∨
      notif = some NotifyType.INVALID_PAYLOAD_TYPE) := by
  simp only [v1_digest_step_check] at h
  split_ifs at h with h1 h2
  all_goals
    first
      | exact err_pair_spec enc _ _ f notif (Except.error.inj h) (Or.inr rfl)
      | exact err_pair_spec enc _ _ f notif (Except.error.inj h) (Or.inl rfl)

/-- Helper: every rejection of the payload-digest loop goes through
the guarded-notification idiom: silent when the packet was encrypted,
PAYLOAD_MALFORMED or INVALID_PAYLOAD_TYPE when plaintext. -/
theorem v1_digest_payloads_err (fromState : StateKind) (smc : StateV1Microcode)
    (enc stP aggr natT : Bool) (payloads : List RawPayload) (needed : Nat)
    (digest : List Nat) (f : DecodeFailure) (notif : Option NotifyType)
    (h : v1_digest_payloads fromState smc enc stP aggr natT payloads needed digest =
      .error (f, notif)) :
    (enc = true → notif = none) ∧
    (enc = false → notif = some NotifyType.PAYLOAD_MALFORMED ∨
      notif = some NotifyType.INVALID_PAYLOAD_TYPE) := by
  induction payloads generalizing needed digest with
  | nil =>
    simp only [v1_digest_payloads] at h
    split_ifs at h with h1
    all_goals
      exact err_pair_spec enc _ _ f notif (Except.error.inj h) (Or.inl rfl)
  | cons pd rest ih =>
    simp only [v1_digest_payloads] at h
    split_ifs at h with h1 h2 h3 h4 h5 h6 h7 <;>
      first
        | exact ih _ _ h
        | exact err_pair_spec enc _ _ f notif (Except.error.inj h) (Or.inl rfl)
        | exact err_pair_spec enc _ _ f notif (Except.error.inj h) (Or.inr rfl)
        | (split at h <;>
            first
              | exact ih _ _ h
              | (rename_i e heq
                 have hepair := Except.error.inj h
                 rw [hepair] at heq
                 exact v1_digest_step_check_err _ _ _ _ _ _ _ heq))

/-- C5 (amended): every decode rejection other than a HASH-integrity
failure notifies PAYLOAD_MALFORMED or INVALID_PAYLOAD_TYPE when the
packet was plaintext; when the packet was encrypted no notification is
emitted except by the two Quick Mode ID-pairing rejections, which send
PAYLOAD_MALFORMED even for encrypted packets; and every rejection
leaves the SA's state unchanged (the handler and dispatcher are never
reached). -/
theorem process_packet_tail_errors_spec (fromState : StateKind)
    (smc : StateV1Microcode) (enc stP aggr natT hashOk : Bool)
    (payloads : List RawPayload) (f : DecodeFailure) (notif : Option NotifyType)
    (herr : process_packet_tail_decode fromState smc enc stP aggr natT hashOk
        payloads = .error (f, notif))
    (hnothash : f ≠ DecodeFailure.hashFailed) :
    (enc = false → notif = some NotifyType.PAYLOAD_MALFORMED ∨
      notif = some NotifyType.INVALID_PAYLOAD_TYPE) ∧
    (enc = true → notif = none ∨ f = DecodeFailure.qmIdCount ∨
      f = DecodeFailure.qmIdNotAdjacent) ∧
    ∀ cur dispatched : StateKind,
      process_packet_tail_next_state cur dispatched fromState smc enc stP aggr natT
        hashOk payloads = cur := by
  have hstate : ∀ cur dispatched : StateKind,
      process_packet_tail_next_state cur dispatched fromState smc enc stP aggr natT
        hashOk payloads = cur := by
    intro cur dispatched
    simp [process_packet_tail_next_state, herr]
  unfold process_packet_tail_decode at herr
  cases hloop : v1_digest_payloads fromState smc enc stP aggr natT payloads
      smc.req_payloads [] with
  | error e =>
    rw [hloop] at herr
    simp only [] at herr
    have he : e = (f, notif) := Except.error.inj herr
    rw [he] at hloop
    have hspec := v1_digest_payloads_err fromState smc enc stP aggr natT payloads
      smc.req_payloads [] f notif hloop
    exact ⟨hspec.2, fun ht => Or.inl (hspec.1 ht), hstate⟩
  | ok digest =>
    rw [hloop] at herr
    simp only [] at herr
    split_ifs at herr with hh1 hh2 hh3 hh4 hh5
    all_goals
      first
        | (simp at herr
           done)
        | (have hinj := Except.error.inj herr
           simp only [Prod.mk.injEq] at hinj
           exact absurd hinj.1.symm hnothash)
        | (have hsp := err_pair_spec enc _ _ f notif (Except.error.inj herr) (Or.inl rfl)
           exact ⟨hsp.2, fun ht => Or.inl (hsp.1 ht), hstate⟩)
        | (split at herr <;>
            first
              | (simp at herr
                 done)
              | (have hinj := Except.error.inj herr
                 simp only [Prod.mk.injEq] at hinj
                 obtain ⟨hf, hn⟩ := hinj
                 subst hf
                 subst hn
                 exact ⟨fun _ => Or.inl rfl, fun _ => Or.inr (Or.inl rfl), hstate⟩)
              | (split_ifs at herr with hadj
                 all_goals
                   first
                     | (simp at herr
                        done)
                     | (have hinj := Except.error.inj herr
                        simp only [Prod.mk.injEq] at hinj
                        obtain ⟨hf, hn⟩ := hinj
                        subst hf
                        subst hn
                        exact ⟨fun _ => Or.inl rfl, fun _ => Or.inr (Or.inr rfl),
                          hstate⟩)))

/-- The STATE_MAIN_R0 entry of the table, used as a concrete input. -/
def mcMainR0 : StateV1Microcode := v1_state_microcode_table.get ⟨0, by decide⟩

/-- Counterexample for C5.  The claim says an encrypted packet rejected
by the decoder is dropped with no notification emitted.  But the Quick
Mode ID-pairing checks send PAYLOAD_MALFORMED without the encrypted
guard used by every other rejection site: an encrypted Quick Mode
message HASH, SA, NONCE, ID (one lone ID payload) is rejected AND
notified. -/
theorem process_packet_tail_encrypted_notify_counterexample :
    process_packet_tail_decode .QUICK_R0 mcQuickR0 true true false false true
        [{ ptype := ISAKMP_NEXT_HASH, wellformed := true },
         { ptype := ISAKMP_NEXT_SA, wellformed := true },
         { ptype := ISAKMP_NEXT_NONCE, wellformed := true },
         { ptype := ISAKMP_NEXT_ID, wellformed := true }] =
      .error (.qmIdCount, some .PAYLOAD_MALFORMED) ∧
    some NotifyType.PAYLOAD_MALFORMED ≠ (none : Option NotifyType) := by
  constructor
  · rfl
  · decide

/-- Witness for C5's amended theorem: a plaintext Main Mode initial
message with an unknown payload type 250 is rejected with
INVALID_PAYLOAD_TYPE and the state does not advance. -/
theorem process_packet_tail_errors_spec_witness :
    process_packet_tail_next_state .MAIN_R0 .MAIN_R1 .MAIN_R0 mcMainR0 false true
        false false true [{ ptype := 250, wellformed := true }] = .MAIN_R0 :=
  (process_packet_tail_errors_spec .MAIN_R0 mcMainR0 false true false false true
      [{ ptype := 250, wellformed := true }] .unknownPayload
      (some .INVALID_PAYLOAD_TYPE) rfl (by decide)).2.2 .MAIN_R0 .MAIN_R1

/-! ## Claim C1: the transition dispatcher on STF_OK
(`complete_v1_state_transition`, ikev1.c lines 2492-2989)

The SA record carries exactly the fields this code path reads or
writes: the current state, the single armed timer slot (`delete_event`
clears it, `event_schedule` / `start_retransmits` fill it), the
connection-end roles and policy bits, the hidden variables, and the
lifetime / margin configuration.  The initiator's randomized rekey
fuzz - a floating-point sample in the source - enters as the
already-sampled number of seconds `fuzz` added to the margin. -/

structure DispatchSa where
  st_state : StateKind
  armed_event : Option EventType
  xauth_client : Bool
  xauth_server : Bool
  modecfg_client : Bool
  modecfg_server : Bool
  policy_aggressive : Bool
  policy_dont_rekey : Bool
  policy_modecfg_pull : Bool
  st_xauth_client_done : Bool
  st_modecfg_vars_set : Bool
  st_modecfg_started : Bool
  doing_xauth : Bool
  st_seen_nortel_vid : Bool
  modecfg_pull_mode : Bool
  sa_ike_life_seconds : Nat
  sa_ipsec_life_seconds : Nat
  oakley_life_seconds : Nat
  ah_present : Bool
  ah_life_seconds : Nat
  esp_present : Bool
  esp_life_seconds : Nat
  ipcomp_present : Bool
  ipcomp_life_seconds : Nat
  sa_rekey_margin : Nat
  deriving DecidableEq, Repr

/-- Modelled from the spec: `change_state` (state.c, not under src/)
moves the SA to the given state; per the spec, `UNDEFINED` in the
next-state slot of the table means "stay in current state" (the
resolution `init_ikev1` computes at ikev1.c line 779). -/
def change_state (st : DispatchSa) (k : StateKind) : DispatchSa :=
  if k = StateKind.UNDEFINED then st else { st with st_state := k }

/-- The resolution of a transition's next-state slot against a current
state (ikev1.c line 779). -/
def resolve_next_state (cur : StateKind) (smc : StateV1Microcode) : StateKind :=
  if smc.next_state = StateKind.UNDEFINED then cur else smc.next_state

/-- The guard of the XAUTH-without-ModeCFG special completion, which
appears twice in the source (lines 2617 and 2708). -/
def xauth_client_done_no_modecfg (st : DispatchSa) : Bool :=
  st.xauth_client && st.st_xauth_client_done && !st.modecfg_client

/-- One `clamp_delay` application (the macro at ikev1.c line 2746):
a present child-SA transform whose lifetime does not exceed the
running delay dictates the delay. -/
def clamp_delay (present : Bool) (life : Nat) : Nat × Bool → Nat × Bool :=
  fun da =>
    if present && da.1 ≥ life then (life, true) else da

/-- The EVENT_SA_REPLACE scheduling computation (ikev1.c lines
2722-2810): pick the governing lifetime (Phase 1: IKE lifetime capped
by the negotiated Oakley lifetime; Phase 2: IPsec lifetime clamped by
AH / ESP / IPcomp), honour POLICY_DONT_REKEY, then subtract the rekey
margin (initiator: plus sampled fuzz; responder: halved), falling back
to EVENT_SA_EXPIRE when no time remains to rekey.  Returns the armed
event kind and its delay in milliseconds. -/
def sa_replace_delay_agreed (st : DispatchSa) : Nat × Bool :=
  if IS_PHASE1 st.st_state || IS_PHASE15 st.st_state then
    let d := st.sa_ike_life_seconds * 1000
    if st.policy_dont_rekey || d ≥ st.oakley_life_seconds * 1000 then
      (st.oakley_life_seconds * 1000, true)
    else
      (d, false)
  else
    let d0 := clamp_delay st.ah_present st.ah_life_seconds
      (st.sa_ipsec_life_seconds, false)
    let d1 := clamp_delay st.esp_present st.esp_life_seconds d0
    let d2 := clamp_delay st.ipcomp_present st.ipcomp_life_seconds d1
    (d2.1 * 1000, d2.2)

/-- The POLICY_DONT_REKEY downgrade of the replace event (ikev1.c
lines 2782-2787). -/
def sa_replace_kind0 (agreed_time dont_rekey initiator : Bool) : EventType :=
  if agreed_time && dont_rekey then
    if initiator then EventType.SA_REPLACE_IF_USED else EventType.SA_EXPIRE
  else
    EventType.SA_REPLACE

/-- The margin subtraction (ikev1.c lines 2788-2808). -/
def sa_replace_margin (st : DispatchSa) (initiator : Bool) (fuzz : Nat)
    (kind : EventType) (delay_ms : Nat) : EventType × Nat :=
  if kind ≠ EventType.SA_EXPIRE then
    let marg :=
      if initiator then st.sa_rekey_margin + fuzz else st.sa_rekey_margin / 2
    if delay_ms > marg * 1000 then (kind, delay_ms - marg * 1000)
    else (EventType.SA_EXPIRE, delay_ms)
  else
    (kind, delay_ms)

def sa_replace_event (st : DispatchSa) (smc : StateV1Microcode) (fuzz : Nat) :
    EventType × Nat :=
  let da := sa_replace_delay_agreed st
  let kind := sa_replace_kind0 da.2 st.policy_dont_rekey (hasFlag smc SMF_INITIATOR)
  sa_replace_margin st (hasFlag smc SMF_INITIATOR) fuzz kind da.1

/-- The state-advance stage of the STF_OK branch: `change_state` to
the table's next state (lines 2602-2606), then the ad hoc
XAUTH-without-ModeCFG completion (lines 2617-2627). -/
def ok_advance (st0 : DispatchSa) (smc : StateV1Microcode) : DispatchSa :=
  let st1 := change_state st0 smc.next_state
  if xauth_client_done_no_modecfg st1 && st1.st_state == StateKind.XAUTH_I1 then
    change_state st1
      (if st1.policy_aggressive then StateKind.AGGR_I2 else StateKind.MAIN_I4)
  else
    st1

/-- The timer stage of the STF_OK branch: delete the previous event
(lines 2630-2643), then schedule per the transition's timeout event,
with the XAUTH-without-ModeCFG kind fixup (lines 2699-2819).  An
EVENT_NULL reaching the switch is a `bad_case` abort, returned as
`none`.  When `md->event_already_set`, neither deletion nor scheduling
happens. -/
def ok_schedule (st2 : DispatchSa) (smc : StateV1Microcode)
    (event_already_set : Bool) (fuzz : Nat) : Option DispatchSa :=
  if !event_already_set then
    let st3 : DispatchSa := { st2 with armed_event := none }
    let kind1 :=
      if xauth_client_done_no_modecfg st3 &&
          (st3.st_state == StateKind.MAIN_I4 ||
           st3.st_state == StateKind.AGGR_I2) then
        EventType.SA_REPLACE
      else
        smc.timeout_event
    match kind1 with
    | .RETRANSMIT => some { st3 with armed_event := some EventType.RETRANSMIT }
    | .SA_REPLACE =>
      some { st3 with armed_event := some (sa_replace_event st3 smc fuzz).1 }
    | .SO_DISCARD => some { st3 with armed_event := some EventType.SO_DISCARD }
    | _ => none
  else
    some st2

/-- The tail of special completions (lines 2864-2948): the
XAUTH-server, XAUTH-client-pending and ModeCFG-client cases stop with
the state as is; the ModeCFG-server push moves to MODE_CFG_R1 and the
Nortel Contivity workaround moves to MAIN_R3 (IS_MODE_CFG_ESTABLISHED
is modelled from the spec as being in MODE_CFG_R2). -/
def ok_tail (smc : StateV1Microcode) (st4 : DispatchSa) : DispatchSa :=
  if st4.xauth_server && st4.doing_xauth &&
      IS_ISAKMP_SA_ESTABLISHED st4.st_state then
    st4
  else if !(IS_QUICK st4.st_state) && st4.xauth_client &&
      !st4.st_xauth_client_done then
    st4
  else if st4.modecfg_client && IS_ISAKMP_SA_ESTABLISHED st4.st_state &&
      (st4.modecfg_pull_mode || st4.policy_modecfg_pull) &&
      !st4.st_modecfg_started then
    st4
  else if st4.modecfg_server && IS_ISAKMP_SA_ESTABLISHED st4.st_state &&
      !st4.st_modecfg_vars_set && !st4.policy_modecfg_pull then
    change_state st4 StateKind.MODE_CFG_R1
  else if !(hasFlag smc SMF_INITIATOR) &&
      st4.st_state == StateKind.MODE_CFG_R2 && st4.st_seen_nortel_vid then
    change_state st4 StateKind.MAIN_R3
  else
    st4

/-- The STF_OK branch of `complete_v1_state_transition`, restricted to
its effect on the SA's state and armed timer.  Reply transmission, VID
bookkeeping, DPD initialization and pending Phase-2 release have no
effect on these two fields and are omitted. -/
def complete_v1_state_transition_ok (st0 : DispatchSa) (smc : StateV1Microcode)
    (event_already_set : Bool) (fuzz : Nat) : Option DispatchSa :=
  (ok_schedule (ok_advance st0 smc) smc event_already_set fuzz).map (ok_tail smc)

/-- A responder SA at STATE_MAIN_R2 with a 100-second configured IKE
lifetime, a 200-second negotiated lifetime and a 600-second rekey
margin: no time remains to rekey, so the dispatcher arms
EVENT_SA_EXPIRE instead of the transition's EVENT_SA_REPLACE. -/
def cexDispatchSa : DispatchSa :=
  { st_state := .MAIN_R2, armed_event := none,
    xauth_client := false, xauth_server := false, modecfg_client := false,
    modecfg_server := false, policy_aggressive := false,
    policy_dont_rekey := false, policy_modecfg_pull := false,
    st_xauth_client_done := false, st_modecfg_vars_set := false,
    st_modecfg_started := false, doing_xauth := false,
    st_seen_nortel_vid := false, modecfg_pull_mode := false,
    sa_ike_life_seconds := 100, sa_ipsec_life_seconds := 0,
    oakley_life_seconds := 200, ah_present := false, ah_life_seconds := 0,
    esp_present := false, esp_life_seconds := 0, ipcomp_present := false,
    ipcomp_life_seconds := 0, sa_rekey_margin := 600 }

/-- The STATE_MAIN_R2 -> STATE_MAIN_R3 PSK entry of the table. -/
def mcMainR2R3 : StateV1Microcode := v1_state_microcode_table.get ⟨8, by decide⟩

/-- Counterexample for C1.  The claim says the armed timer is
RETRANSMIT, SA_REPLACE or SO_DISCARD per the transition's
timeout_event; but for an EVENT_SA_REPLACE transition whose remaining
lifetime does not exceed the rekey margin, the dispatcher arms
EVENT_SA_EXPIRE - none of the three. -/
theorem complete_v1_ok_counterexample :
    (complete_v1_state_transition_ok cexDispatchSa mcMainR2R3 false 0).map
        (fun st => st.armed_event) = some (some EventType.SA_EXPIRE) ∧
    mcMainR2R3.timeout_event = EventType.SA_REPLACE ∧
    (EventType.SA_EXPIRE ≠ EventType.RETRANSMIT ∧
     EventType.SA_EXPIRE ≠ EventType.SA_REPLACE ∧
     EventType.SA_EXPIRE ≠ EventType.SO_DISCARD) :=
  ⟨rfl, rfl, by decide⟩

/-- Helper: the EVENT_SA_REPLACE scheduler arms one of SA_REPLACE,
SA_REPLACE_IF_USED or SA_EXPIRE. -/
theorem sa_replace_kind0_cases (a d i : Bool) :
    sa_replace_kind0 a d i = EventType.SA_REPLACE ∨
    sa_replace_kind0 a d i = EventType.SA_REPLACE_IF_USED ∨
    sa_replace_kind0 a d i = EventType.SA_EXPIRE := by
  unfold sa_replace_kind0
  split_ifs <;> simp

theorem sa_replace_event_kinds (st : DispatchSa) (smc : StateV1Microcode)
    (fuzz : Nat) :
    (sa_replace_event st smc fuzz).1 = EventType.SA_REPLACE ∨
    (sa_replace_event st smc fuzz).1 = EventType.SA_REPLACE_IF_USED ∨
    (sa_replace_event st smc fuzz).1 = EventType.SA_EXPIRE := by
  simp only [sa_replace_event, sa_replace_margin]
  rcases sa_replace_kind0_cases (sa_replace_delay_agreed st).2 st.policy_dont_rekey
      (hasFlag smc SMF_INITIATOR) with hk | hk | hk <;>
    rw [hk] <;> split_ifs <;> simp

/-- Helper: `change_state` to the table's next-state slot lands on the
resolved next state. -/
theorem change_state_resolve (st0 : DispatchSa) (smc : StateV1Microcode) :
    change_state st0 smc.next_state =
      { st0 with st_state := resolve_next_state st0.st_state smc } := by
  unfold change_state resolve_next_state
  split_ifs with h <;> rfl

/-- Helper: when the XAUTH-without-ModeCFG completion does not apply,
the advance stage lands exactly on the resolved next state. -/
theorem ok_advance_no_xauth (st0 : DispatchSa) (smc : StateV1Microcode)
    (hx : xauth_client_done_no_modecfg st0 = false) :
    ok_advance st0 smc =
      { st0 with st_state := resolve_next_state st0.st_state smc } := by
  simp only [ok_advance]
  rw [change_state_resolve]
  have hg : xauth_client_done_no_modecfg
      { st0 with st_state := resolve_next_state st0.st_state smc } = false := by
    simpa [xauth_client_done_no_modecfg] using hx
  rw [hg]
  simp

/-- Helper: scheduling for an EVENT_RETRANSMIT transition. -/
theorem ok_schedule_retransmit (st2 : DispatchSa) (smc : StateV1Microcode)
    (fuzz : Nat)
    (hx : xauth_client_done_no_modecfg st2 = false)
    (hto : smc.timeout_event = EventType.RETRANSMIT) :
    ok_schedule st2 smc false fuzz =
      some { st2 with armed_event := some EventType.RETRANSMIT } := by
  have hg : xauth_client_done_no_modecfg { st2 with armed_event := none } = false := by
    simpa [xauth_client_done_no_modecfg] using hx
  simp [ok_schedule, hg, hto]

/-- Helper: scheduling for an EVENT_SO_DISCARD transition. -/
theorem ok_schedule_so_discard (st2 : DispatchSa) (smc : StateV1Microcode)
    (fuzz : Nat)
    (hx : xauth_client_done_no_modecfg st2 = false)
    (hto : smc.timeout_event = EventType.SO_DISCARD) :
    ok_schedule st2 smc false fuzz =
      some { st2 with armed_event := some EventType.SO_DISCARD } := by
  have hg : xauth_client_done_no_modecfg { st2 with armed_event := none } = false := by
    simpa [xauth_client_done_no_modecfg] using hx
  simp [ok_schedule, hg, hto]

/-- Helper: scheduling for an EVENT_SA_REPLACE transition. -/
theorem ok_schedule_sa_replace (st2 : DispatchSa) (smc : StateV1Microcode)
    (fuzz : Nat)
    (hx : xauth_client_done_no_modecfg st2 = false)
    (hto : smc.timeout_event = EventType.SA_REPLACE) :
    ok_schedule st2 smc false fuzz =
      some { st2 with
        armed_event := some (sa_replace_event { st2 with armed_event := none } smc fuzz).1 } := by
  have hg : xauth_client_done_no_modecfg { st2 with armed_event := none } = false := by
    simpa [xauth_client_done_no_modecfg] using hx
  simp [ok_schedule, hg, hto]

/-- Helper: the special-completion tail leaves the SA alone when
neither the ModeCFG-server push nor the Nortel workaround applies. -/
theorem ok_tail_noop (smc : StateV1Microcode) (st4 : DispatchSa)
    (hms : (st4.modecfg_server && IS_ISAKMP_SA_ESTABLISHED st4.st_state &&
        !st4.st_modecfg_vars_set && !st4.policy_modecfg_pull) = false)
    (hnt : (!(hasFlag smc SMF_INITIATOR) &&
        (st4.st_state == StateKind.MODE_CFG_R2) && st4.st_seen_nortel_vid) = false) :
    ok_tail smc st4 = st4 := by
  unfold ok_tail
  rw [hms, hnt]
  split_ifs <;> first | rfl | contradiction

/-- C1 (amended): when the XAUTH-without-ModeCFG completion does not
apply, the transition's timeout event is one of RETRANSMIT, SA_REPLACE
or SO_DISCARD, and neither the ModeCFG-server push nor the Nortel
Contivity completion applies, the dispatcher on STF_OK moves the SA to
the transition's next state (UNDEFINED meaning stay) and, after
deleting any previously armed event, arms exactly one timer:
RETRANSMIT or SO_DISCARD per the timeout event, and for SA_REPLACE one
of SA_REPLACE, SA_REPLACE_IF_USED or SA_EXPIRE depending on rekey
policy, lifetimes and margin. -/
theorem complete_v1_state_transition_ok_spec (st0 : DispatchSa)
    (smc : StateV1Microcode) (fuzz : Nat)
    (hx : xauth_client_done_no_modecfg st0 = false)
    (hto : smc.timeout_event = EventType.RETRANSMIT ∨
           smc.timeout_event = EventType.SA_REPLACE ∨
           smc.timeout_event = EventType.SO_DISCARD)
    (hms : (st0.modecfg_server &&
        IS_ISAKMP_SA_ESTABLISHED (resolve_next_state st0.st_state smc) &&
        !st0.st_modecfg_vars_set && !st0.policy_modecfg_pull) = false)
    (hnt : (!(hasFlag smc SMF_INITIATOR) &&
        (resolve_next_state st0.st_state smc == StateKind.MODE_CFG_R2) &&
        st0.st_seen_nortel_vid) = false) :
    ∃ st1, complete_v1_state_transition_ok st0 smc false fuzz = some st1 ∧
      st1.st_state = resolve_next_state st0.st_state smc ∧
      st1.armed_event.isSome = true ∧
      (smc.timeout_event = EventType.RETRANSMIT →
        st1.armed_event = some EventType.RETRANSMIT) ∧
      (smc.timeout_event = EventType.SO_DISCARD →
        st1.armed_event = some EventType.SO_DISCARD) ∧
      (smc.timeout_event = EventType.SA_REPLACE →
        st1.armed_event = some EventType.SA_REPLACE ∨
        st1.armed_event = some EventType.SA_REPLACE_IF_USED ∨
        st1.armed_event = some EventType.SA_EXPIRE) := by
  have hadv := ok_advance_no_xauth st0 smc hx
  have hx2 : xauth_client_done_no_modecfg
      { st0 with st_state := resolve_next_state st0.st_state smc } = false := by
    simpa [xauth_client_done_no_modecfg] using hx
  rcases hto with hto | hto | hto
  · -- EVENT_RETRANSMIT
    have hsch := ok_schedule_retransmit _ smc fuzz hx2 hto
    have htail := ok_tail_noop smc
        { st0 with
          st_state := resolve_next_state st0.st_state smc,
          armed_event := some EventType.RETRANSMIT }
        (by simpa using hms) (by simpa using hnt)
    refine ⟨{ st0 with
        st_state := resolve_next_state st0.st_state smc,
        armed_event := some EventType.RETRANSMIT }, ?_, rfl, rfl,
      fun _ => rfl, ?_, ?_⟩
    · unfold complete_v1_state_transition_ok
      rw [hadv, hsch]
      simp [htail]
    · intro hh
      rw [hto] at hh
      cases hh
    · intro hh
      rw [hto] at hh
      cases hh
  · -- EVENT_SA_REPLACE
    have hsch := ok_schedule_sa_replace _ smc fuzz hx2 hto
    have htail := ok_tail_noop smc
        { st0 with
          st_state := resolve_next_state st0.st_state smc,
          armed_event := some (sa_replace_event
            { st0 with
              st_state := resolve_next_state st0.st_state smc,
              armed_event := none } smc fuzz).1 }
        (by simpa using hms) (by simpa using hnt)
    refine ⟨{ st0 with
        st_state := resolve_next_state st0.st_state smc,
        armed_event := some (sa_replace_event
          { st0 with
            st_state := resolve_next_state st0.st_state smc,
            armed_event := none } smc fuzz).1 }, ?_, rfl, rfl, ?_, ?_, ?_⟩
    · unfold complete_v1_state_transition_ok
      rw [hadv, hsch]
      simp [htail]
    · intro hh
      rw [hto] at hh
      cases hh
    · intro hh
      rw [hto] at hh
      cases hh
    · intro hh
      simpa using sa_replace_event_kinds
        { st0 with
          st_state := resolve_next_state st0.st_state smc,
          armed_event := none } smc fuzz
  · -- EVENT_SO_DISCARD
    have hsch := ok_schedule_so_discard _ smc fuzz hx2 hto
    have htail := ok_tail_noop smc
        { st0 with
          st_state := resolve_next_state st0.st_state smc,
          armed_event := some EventType.SO_DISCARD }
        (by simpa using hms) (by simpa using hnt)
    refine ⟨{ st0 with
        st_state := resolve_next_state st0.st_state smc,
        armed_event := some EventType.SO_DISCARD }, ?_, rfl, rfl, ?_,
      fun _ => rfl, ?_⟩
    · unfold complete_v1_state_transition_ok
      rw [hadv, hsch]
      simp [htail]
    · intro hh
      rw [hto] at hh
      cases hh
    · intro hh
      rw [hto] at hh
      cases hh

/-- Witness for C1's amended theorem: the MAIN_R0 -> MAIN_R1 entry on
a fresh responder SA arms EVENT_SO_DISCARD and lands in MAIN_R1. -/
theorem complete_v1_state_transition_ok_spec_witness :
    ∃ st1, complete_v1_state_transition_ok
        { cexDispatchSa with st_state := StateKind.MAIN_R0 } mcMainR0 false 0 =
          some st1 ∧
      st1.st_state = resolve_next_state StateKind.MAIN_R0 mcMainR0 ∧
      st1.armed_event = some EventType.SO_DISCARD := by
  obtain ⟨st1, h1, h2, h3, h4, h5, h6⟩ :=
    complete_v1_state_transition_ok_spec
      { cexDispatchSa with st_state := StateKind.MAIN_R0 } mcMainR0 0
      (by decide) (Or.inr (Or.inr (by decide))) (by decide) (by decide)
  exact ⟨st1, h1, h2, h5 (by decide)⟩
